import Mathlib

/-!
Verification development for the Fanout & Claim Coordinator
(`app/api.py`, `app/models.py`, `app/state.py`).

The two endpoint handlers `trigger_fanout` and `receive_message` are
translated into pure Lean functions over an explicit `SystemState`.
Timestamps (`datetime`) are modelled as natural numbers counting seconds;
the `timedelta(minutes=10)` escalation window becomes the constant
`escalationDelay = 600`.

Two modelling notes about the Python source:
* The pydantic `ShiftFanoutState` object returned by `fanout_db.get` is the
  very object stored in the database (the store holds references), so every
  in-place mutation of it (`list.append`, attribute assignment) is visible
  in the store immediately, whether or not `fanout_db.put` runs afterwards.
  The Lean translation therefore writes the updated record back to the
  store at each mutation point; the later `put` calls of the source are
  value-level no-ops.
* `trigger_fanout` guards the claimed early-return with Python truthiness
  (`if state.claimed_caregiver_id:`), which treats the empty string like
  `None`, while `receive_message` uses `is not None`.  Both are modelled
  exactly (`truthy` vs `Option.isSome`).
-/

/-- Caregiver record (`app/models.py`). -/
structure Caregiver where
  id : String
  name : String
  role : String
  phone : String
deriving DecidableEq, Repr

/-- Shift record (`app/models.py`).  Start/end timestamps are seconds. -/
structure Shift where
  id : String
  organization_id : String
  role_required : String
  start_time : Nat
  end_time : Nat
  claimed_by_caregiver_id : Option String := none
deriving DecidableEq, Repr

/-- Notification channel kind (`app/models.py`, `ContactChannel`). -/
inductive ContactChannel where
  | sms
  | call
deriving DecidableEq, Repr

/-- Per-shift fanout state (`app/models.py`, `ShiftFanoutState`). -/
structure ShiftFanoutState where
  shift_id : String
  started_at : Nat
  sms_notified_caregiver_ids : List String := []
  call_notified_caregiver_ids : List String := []
  claimed_caregiver_id : Option String := none
  escalated_to_call : Bool := false
deriving DecidableEq, Repr

/-- An SMS or phone-call dispatch issued to the notification collaborator. -/
structure Send where
  channel : ContactChannel
  phone : String
  message : String
deriving DecidableEq, Repr

/-- Modelled from the spec: `app/database.py` (InMemoryKeyValueDatabase) is
not in the source tree; §4.1 specifies `get` (no error on miss), `put`
(unconditional upsert) and `all` (snapshot in insertion order).  The two
keyed stores `shift_db` and `fanout_db`, which the endpoints access only
through `get`/`put`, are modelled as functions from key to optional value;
`caregiver_db`, which the endpoints access only through `all()`, is
modelled as its insertion-ordered snapshot list (`app/state.py`). -/
structure SystemState where
  caregiver_db : List Caregiver
  shift_db : String → Option Shift
  fanout_db : String → Option ShiftFanoutState

/-- Modelled from the spec: intent classification (`app/intent.py`,
`ShiftRequestMessageIntent`) is an external black box mapping free text to
one of ACCEPT / DECLINE / UNKNOWN (§6). -/
inductive ShiftRequestMessageIntent where
  | accept
  | decline
  | unknown
deriving DecidableEq, Repr

/-- Response body of the inbound-message endpoint (`app/api.py`). -/
structure ShiftClaimResponse where
  success : Bool
  message : String
  shift_id : String
  claimed_by : Option String
deriving DecidableEq, Repr

/-- `put` on a keyed store: unconditional upsert, last write wins. -/
def putF {α : Type} (f : String → Option α) (k : String) (v : α) :
    String → Option α :=
  fun k' => if k' = k then some v else f k'

/-- Python truthiness of an optional string
(`if state.claimed_caregiver_id:` in `trigger_fanout`): `None` and the
empty string are falsy. -/
def truthy : Option String → Bool
  | none => false
  | some s => !(s == "")

/-- `timedelta(minutes=10)` in seconds. -/
def escalationDelay : Nat := 600

/-- SMS text built in `trigger_fanout`. -/
def smsMessage (shiftId : String) : String :=
  "New shift available! ID: " ++ shiftId

/-- Call text built in `trigger_fanout`. -/
def callMessage (shiftId : String) : String :=
  "Urgent: Shift available! ID: " ++ shiftId

/-- The SMS loop of `trigger_fanout` (`app/api.py` lines 105-109): for each
eligible caregiver not yet in `sms_notified_caregiver_ids`, append their id
and create an SMS send. -/
def smsRound (shiftIdStr : String) (el : List Caregiver)
    (st : ShiftFanoutState) : ShiftFanoutState × List Send :=
  match el with
  | [] => (st, [])
  | c :: rest =>
    if c.id ∈ st.sms_notified_caregiver_ids then
      smsRound shiftIdStr rest st
    else
      let st' := { st with
        sms_notified_caregiver_ids := st.sms_notified_caregiver_ids ++ [c.id] }
      let r := smsRound shiftIdStr rest st'
      (r.1, ⟨ContactChannel.sms, c.phone, smsMessage shiftIdStr⟩ :: r.2)

/-- The escalation call loop of `trigger_fanout` (`app/api.py` lines
119-125): for each eligible caregiver not yet in
`call_notified_caregiver_ids`, append their id and create a call send. -/
def callRound (shiftIdStr : String) (el : List Caregiver)
    (st : ShiftFanoutState) : ShiftFanoutState × List Send :=
  match el with
  | [] => (st, [])
  | c :: rest =>
    if c.id ∈ st.call_notified_caregiver_ids then
      callRound shiftIdStr rest st
    else
      let st' := { st with
        call_notified_caregiver_ids := st.call_notified_caregiver_ids ++ [c.id] }
      let r := callRound shiftIdStr rest st'
      (r.1, ⟨ContactChannel.call, c.phone, callMessage shiftIdStr⟩ :: r.2)

/-- Outcome of one `trigger_fanout` call: HTTP 404 (shift not found), an
exception propagated out of `asyncio.gather` because an individual send
raised, or the returned `ShiftFanoutState`. -/
inductive FanoutOutcome where
  | notFound
  | sendFailed
  | ok (st : ShiftFanoutState)
deriving DecidableEq, Repr

/-- Result of a `trigger_fanout` call: outcome, post-call system state and
the list of sends issued (a send is issued once its task is gathered, even
when another task in the same round fails). -/
structure FanoutResult where
  outcome : FanoutOutcome
  sys : SystemState
  sends : List Send

/-- `POST /shifts/{shift_id}/fanout` (`app/api.py`, `trigger_fanout`).
`smsFails`/`callFails` model the external notifier (`app/notifier.py` is
not in the source tree; spec §6 says each send is independent and may
fail): they tell, by phone number, whether that send raises.  The source
awaits each round with `asyncio.gather(*tasks)` without
`return_exceptions=True`, so all tasks of the round run but a failing one
propagates its exception out of the handler; the loop's in-place markings
remain visible in the store (see the module comment on aliasing). -/
def trigger_fanout (smsFails callFails : String → Bool) (shift_id : String)
    (now : Nat) (σ : SystemState) : FanoutResult :=
  match σ.shift_db shift_id with
  | none => ⟨.notFound, σ, []⟩
  | some shift =>
    let p : ShiftFanoutState × SystemState :=
      match σ.fanout_db shift_id with
      | some st => (st, σ)
      | none =>
        let st : ShiftFanoutState := ⟨shift_id, now, [], [], none, false⟩
        (st, { σ with fanout_db := putF σ.fanout_db shift_id st })
    let state := p.1
    let σ0 := p.2
    if truthy state.claimed_caregiver_id then
      ⟨.ok state, σ0, []⟩
    else
      let eligible := σ.caregiver_db.filter (fun c => c.role == shift.role_required)
      let q := smsRound shift.id eligible state
      let st1 := q.1
      let smsSends := q.2
      let σ1 := { σ0 with fanout_db := putF σ0.fanout_db shift_id st1 }
      if smsSends.any (fun s => smsFails s.phone) then
        ⟨.sendFailed, σ1, smsSends⟩
      else if st1.started_at + escalationDelay ≤ now ∧ ¬ st1.escalated_to_call then
        let st2 := { st1 with escalated_to_call := true }
        let r := callRound shift.id eligible st2
        let st3 := r.1
        let callSends := r.2
        let σ2 := { σ1 with fanout_db := putF σ1.fanout_db shift_id st3 }
        if callSends.any (fun s => callFails s.phone) then
          ⟨.sendFailed, σ2, smsSends ++ callSends⟩
        else
          ⟨.ok st3, σ2, smsSends ++ callSends⟩
      else
        ⟨.ok st1, σ1, smsSends⟩

/-- Outcome of one inbound-message call: HTTP 404 with its detail string,
or a `ShiftClaimResponse`. -/
inductive InboundOutcome where
  | notFound (detail : String)
  | resp (r : ShiftClaimResponse)
deriving DecidableEq, Repr

/-- Result of a `receive_message` call. -/
structure InboundResult where
  outcome : InboundOutcome
  sys : SystemState

/-- `POST /messages/inbound` (`app/api.py`, `receive_message`).
`classify` models the external intent classifier (spec §6); `now` is the
wall-clock instant used when a `ShiftFanoutState` has to be created lazily
on first contact. -/
def receive_message (classify : String → ShiftRequestMessageIntent)
    (now : Nat) (from_phone shift_id body : String) (σ : SystemState) :
    InboundResult :=
  match σ.caregiver_db.find? (fun c => c.phone == from_phone) with
  | none => ⟨.notFound "Caregiver not found", σ⟩
  | some caregiver =>
    match σ.shift_db shift_id with
    | none => ⟨.notFound "Shift not found", σ⟩
    | some shift =>
      if shift.role_required ≠ caregiver.role then
        ⟨.resp ⟨false, "Not eligible for this shift role", shift.id,
          shift.claimed_by_caregiver_id⟩, σ⟩
      else
        match classify body with
        | .accept =>
          let p : ShiftFanoutState × SystemState :=
            match σ.fanout_db shift.id with
            | some fs => (fs, σ)
            | none =>
              let fs : ShiftFanoutState := ⟨shift.id, now, [], [], none, false⟩
              (fs, { σ with fanout_db := putF σ.fanout_db shift.id fs })
          let fanout_state := p.1
          let σ1 := p.2
          if fanout_state.claimed_caregiver_id.isSome then
            ⟨.resp ⟨false, "Shift already claimed", shift.id,
              fanout_state.claimed_caregiver_id⟩, σ1⟩
          else
            let fs' := { fanout_state with claimed_caregiver_id := some caregiver.id }
            let σ2 := { σ1 with fanout_db := putF σ1.fanout_db shift.id fs' }
            let shift' := { shift with claimed_by_caregiver_id := some caregiver.id }
            let σ3 := { σ2 with shift_db := putF σ2.shift_db shift.id shift' }
            ⟨.resp ⟨true, "Shift successfully claimed!", shift.id,
              some caregiver.id⟩, σ3⟩
        | .decline =>
          ⟨.resp ⟨false, "Shift declined", shift.id,
            shift.claimed_by_caregiver_id⟩, σ⟩
        | .unknown =>
          ⟨.resp ⟨false, "Intent unknown", shift.id,
            shift.claimed_by_caregiver_id⟩, σ⟩

/-- One externally triggered operation against the coordinator. -/
inductive Op where
  | fanout (shift_id : String) (now : Nat)
  | inbound (from_phone shift_id body : String) (now : Nat)

/-- Apply one operation, returning the new system state and the sends it
issued. -/
def stepOp (classify : String → ShiftRequestMessageIntent)
    (smsFails callFails : String → Bool) (σ : SystemState) (op : Op) :
    SystemState × List Send :=
  match op with
  | .fanout sid now =>
    let r := trigger_fanout smsFails callFails sid now σ
    (r.sys, r.sends)
  | .inbound fp sid b now =>
    let r := receive_message classify now fp sid b σ
    (r.sys, [])

/-- Apply a sequence of operations, accumulating all sends issued. -/
def runOps (classify : String → ShiftRequestMessageIntent)
    (smsFails callFails : String → Bool) (σ : SystemState) :
    List Op → SystemState × List Send
  | [] => (σ, [])
  | op :: rest =>
    let p := stepOp classify smsFails callFails σ op
    let r := runOps classify smsFails callFails p.1 rest
    (r.1, p.2 ++ r.2)

/-- Process a list of inbound messages `(from_phone, shift_id, body)` in
order, collecting each call's outcome. -/
def runInbound (classify : String → ShiftRequestMessageIntent) (now : Nat) :
    List (String × String × String) → SystemState →
    List InboundOutcome × SystemState
  | [], σ => ([], σ)
  | m :: rest, σ =>
    let r := receive_message classify now m.1 m.2.1 m.2.2 σ
    let q := runInbound classify now rest r.sys
    (r.outcome :: q.1, q.2)

/-- A send oracle under which no send fails. -/
def noFail : String → Bool := fun _ => false

/-- `trigger_fanout` with channels that do not fail: the normal-path
advance of the fanout state machine. -/
def advance (shift_id : String) (now : Nat) (σ : SystemState) : FanoutResult :=
  trigger_fanout noFail noFail shift_id now σ

/-! ### Round lemmas: the SMS and call loops -/

theorem smsRound_fields (m : String) (el : List Caregiver) : ∀ st : ShiftFanoutState,
    (smsRound m el st).1.started_at = st.started_at ∧
    (smsRound m el st).1.escalated_to_call = st.escalated_to_call ∧
    (smsRound m el st).1.claimed_caregiver_id = st.claimed_caregiver_id ∧
    (smsRound m el st).1.call_notified_caregiver_ids = st.call_notified_caregiver_ids ∧
    (smsRound m el st).1.shift_id = st.shift_id := by
  induction el with
  | nil => intro st; exact ⟨rfl, rfl, rfl, rfl, rfl⟩
  | cons c rest ih =>
    intro st
    by_cases h : c.id ∈ st.sms_notified_caregiver_ids
    · simpa [smsRound, h] using ih st
    · simpa [smsRound, h] using
        ih { st with sms_notified_caregiver_ids := st.sms_notified_caregiver_ids ++ [c.id] }

theorem smsRound_sms_append (m : String) (el : List Caregiver) :
    ∀ st : ShiftFanoutState, ∃ t : List String,
      (smsRound m el st).1.sms_notified_caregiver_ids =
        st.sms_notified_caregiver_ids ++ t ∧
      ∀ x ∈ t, ∃ c ∈ el, c.id = x := by
  induction el with
  | nil => intro st; exact ⟨[], by simp [smsRound]⟩
  | cons c rest ih =>
    intro st
    by_cases h : c.id ∈ st.sms_notified_caregiver_ids
    · obtain ⟨t, ht, hmem⟩ := ih st
      refine ⟨t, by simpa [smsRound, h] using ht, ?_⟩
      intro x hx
      obtain ⟨c', hc', hid⟩ := hmem x hx
      exact ⟨c', List.mem_cons_of_mem _ hc', hid⟩
    · obtain ⟨t, ht, hmem⟩ :=
        ih { st with sms_notified_caregiver_ids := st.sms_notified_caregiver_ids ++ [c.id] }
      refine ⟨c.id :: t, ?_, ?_⟩
      · simpa [smsRound, h] using ht
      · intro x hx
        rcases List.mem_cons.mp hx with hx | hx
        · exact ⟨c, List.mem_cons_self _ _, hx.symm⟩
        · obtain ⟨c', hc', hid⟩ := hmem x hx
          exact ⟨c', List.mem_cons_of_mem _ hc', hid⟩

theorem smsRound_sms_mono (m : String) (el : List Caregiver)
    (st : ShiftFanoutState) {x : String}
    (hx : x ∈ st.sms_notified_caregiver_ids) :
    x ∈ (smsRound m el st).1.sms_notified_caregiver_ids := by
  obtain ⟨t, ht, -⟩ := smsRound_sms_append m el st
  rw [ht]
  exact List.mem_append_left _ hx

theorem smsRound_complete (m : String) (el : List Caregiver) :
    ∀ st : ShiftFanoutState, ∀ c ∈ el,
      c.id ∈ (smsRound m el st).1.sms_notified_caregiver_ids := by
  induction el with
  | nil => intro st c hc; cases hc
  | cons a rest ih =>
    intro st c hc
    by_cases h : a.id ∈ st.sms_notified_caregiver_ids
    · rcases List.mem_cons.mp hc with rfl | hc
      · simpa [smsRound, h] using smsRound_sms_mono m rest st h
      · simpa [smsRound, h] using ih st c hc
    · rcases List.mem_cons.mp hc with rfl | hc
      · have : c.id ∈ (st.sms_notified_caregiver_ids ++ [c.id]) := by simp
        simpa [smsRound, h] using
          smsRound_sms_mono m rest
            { st with sms_notified_caregiver_ids := st.sms_notified_caregiver_ids ++ [c.id] }
            this
      · simpa [smsRound, h] using
          ih { st with sms_notified_caregiver_ids := st.sms_notified_caregiver_ids ++ [a.id] } c hc

theorem smsRound_done (m : String) (el : List Caregiver)
    (st : ShiftFanoutState)
    (h : ∀ c ∈ el, c.id ∈ st.sms_notified_caregiver_ids) :
    smsRound m el st = (st, []) := by
  induction el with
  | nil => rfl
  | cons c rest ih =>
    have hc : c.id ∈ st.sms_notified_caregiver_ids := h c (List.mem_cons_self _ _)
    simp only [smsRound, if_pos hc]
    exact ih fun c' hc' => h c' (List.mem_cons_of_mem _ hc')

theorem smsRound_sends_shape (m : String) (el : List Caregiver) :
    ∀ st : ShiftFanoutState, ∀ s ∈ (smsRound m el st).2,
      ∃ c ∈ el, s = ⟨ContactChannel.sms, c.phone, smsMessage m⟩ := by
  induction el with
  | nil => intro st s hs; simp [smsRound] at hs
  | cons c rest ih =>
    intro st s hs
    by_cases h : c.id ∈ st.sms_notified_caregiver_ids
    · simp only [smsRound, if_pos h] at hs
      obtain ⟨c', hc', hsend⟩ := ih st s hs
      exact ⟨c', List.mem_cons_of_mem _ hc', hsend⟩
    · simp only [smsRound, if_neg h] at hs
      rcases List.mem_cons.mp hs with rfl | hs
      · exact ⟨c, List.mem_cons_self _ _, rfl⟩
      · obtain ⟨c', hc', hsend⟩ :=
          ih { st with sms_notified_caregiver_ids := st.sms_notified_caregiver_ids ++ [c.id] } s hs
        exact ⟨c', List.mem_cons_of_mem _ hc', hsend⟩

theorem smsRound_send_of_unmarked (m : String) (el : List Caregiver) :
    ∀ st : ShiftFanoutState, (el.map Caregiver.id).Nodup →
      ∀ c ∈ el, c.id ∉ st.sms_notified_caregiver_ids →
        (⟨ContactChannel.sms, c.phone, smsMessage m⟩ : Send) ∈ (smsRound m el st).2 := by
  induction el with
  | nil => intro st _ c hc; cases hc
  | cons a rest ih =>
    intro st hnd c hc hcm
    have hnd' : (rest.map Caregiver.id).Nodup := (List.nodup_cons.mp hnd).2
    have hout : a.id ∉ rest.map Caregiver.id := (List.nodup_cons.mp hnd).1
    by_cases h : a.id ∈ st.sms_notified_caregiver_ids
    · rcases List.mem_cons.mp hc with rfl | hc
      · exact absurd h hcm
      · simp only [smsRound, if_pos h]
        exact ih st hnd' c hc hcm
    · rcases List.mem_cons.mp hc with rfl | hc
      · simp only [smsRound, if_neg h]
        exact List.mem_cons_self _ _
      · simp only [smsRound, if_neg h]
        refine List.mem_cons_of_mem _ ?_
        refine ih _ hnd' c hc ?_
        have hne : c.id ≠ a.id := by
          intro hEq
          exact hout (hEq ▸ List.mem_map_of_mem Caregiver.id hc)
        simp [hcm, hne]

theorem callRound_fields (m : String) (el : List Caregiver) : ∀ st : ShiftFanoutState,
    (callRound m el st).1.started_at = st.started_at ∧
    (callRound m el st).1.escalated_to_call = st.escalated_to_call ∧
    (callRound m el st).1.claimed_caregiver_id = st.claimed_caregiver_id ∧
    (callRound m el st).1.sms_notified_caregiver_ids = st.sms_notified_caregiver_ids ∧
    (callRound m el st).1.shift_id = st.shift_id := by
  induction el with
  | nil => intro st; exact ⟨rfl, rfl, rfl, rfl, rfl⟩
  | cons c rest ih =>
    intro st
    by_cases h : c.id ∈ st.call_notified_caregiver_ids
    · simpa [callRound, h] using ih st
    · simpa [callRound, h] using
        ih { st with call_notified_caregiver_ids := st.call_notified_caregiver_ids ++ [c.id] }

theorem callRound_call_append (m : String) (el : List Caregiver) :
    ∀ st : ShiftFanoutState, ∃ t : List String,
      (callRound m el st).1.call_notified_caregiver_ids =
        st.call_notified_caregiver_ids ++ t ∧
      ∀ x ∈ t, ∃ c ∈ el, c.id = x := by
  induction el with
  | nil => intro st; exact ⟨[], by simp [callRound]⟩
  | cons c rest ih =>
    intro st
    by_cases h : c.id ∈ st.call_notified_caregiver_ids
    · obtain ⟨t, ht, hmem⟩ := ih st
      refine ⟨t, by simpa [callRound, h] using ht, ?_⟩
      intro x hx
      obtain ⟨c', hc', hid⟩ := hmem x hx
      exact ⟨c', List.mem_cons_of_mem _ hc', hid⟩
    · obtain ⟨t, ht, hmem⟩ :=
        ih { st with call_notified_caregiver_ids := st.call_notified_caregiver_ids ++ [c.id] }
      refine ⟨c.id :: t, ?_, ?_⟩
      · simpa [callRound, h] using ht
      · intro x hx
        rcases List.mem_cons.mp hx with hx | hx
        · exact ⟨c, List.mem_cons_self _ _, hx.symm⟩
        · obtain ⟨c', hc', hid⟩ := hmem x hx
          exact ⟨c', List.mem_cons_of_mem _ hc', hid⟩

theorem callRound_call_mono (m : String) (el : List Caregiver)
    (st : ShiftFanoutState) {x : String}
    (hx : x ∈ st.call_notified_caregiver_ids) :
    x ∈ (callRound m el st).1.call_notified_caregiver_ids := by
  obtain ⟨t, ht, -⟩ := callRound_call_append m el st
  rw [ht]
  exact List.mem_append_left _ hx

theorem callRound_complete (m : String) (el : List Caregiver) :
    ∀ st : ShiftFanoutState, ∀ c ∈ el,
      c.id ∈ (callRound m el st).1.call_notified_caregiver_ids := by
  induction el with
  | nil => intro st c hc; cases hc
  | cons a rest ih =>
    intro st c hc
    by_cases h : a.id ∈ st.call_notified_caregiver_ids
    · rcases List.mem_cons.mp hc with rfl | hc
      · simpa [callRound, h] using callRound_call_mono m rest st h
      · simpa [callRound, h] using ih st c hc
    · rcases List.mem_cons.mp hc with rfl | hc
      · have : c.id ∈ (st.call_notified_caregiver_ids ++ [c.id]) := by simp
        simpa [callRound, h] using
          callRound_call_mono m rest
            { st with call_notified_caregiver_ids := st.call_notified_caregiver_ids ++ [c.id] }
            this
      · simpa [callRound, h] using
          ih { st with call_notified_caregiver_ids := st.call_notified_caregiver_ids ++ [a.id] } c hc

theorem callRound_done (m : String) (el : List Caregiver)
    (st : ShiftFanoutState)
    (h : ∀ c ∈ el, c.id ∈ st.call_notified_caregiver_ids) :
    callRound m el st = (st, []) := by
  induction el with
  | nil => rfl
  | cons c rest ih =>
    have hc : c.id ∈ st.call_notified_caregiver_ids := h c (List.mem_cons_self _ _)
    simp only [callRound, if_pos hc]
    exact ih fun c' hc' => h c' (List.mem_cons_of_mem _ hc')

theorem callRound_sends_shape (m : String) (el : List Caregiver) :
    ∀ st : ShiftFanoutState, ∀ s ∈ (callRound m el st).2,
      ∃ c ∈ el, s = ⟨ContactChannel.call, c.phone, callMessage m⟩ := by
  induction el with
  | nil => intro st s hs; simp [callRound] at hs
  | cons c rest ih =>
    intro st s hs
    by_cases h : c.id ∈ st.call_notified_caregiver_ids
    · simp only [callRound, if_pos h] at hs
      obtain ⟨c', hc', hsend⟩ := ih st s hs
      exact ⟨c', List.mem_cons_of_mem _ hc', hsend⟩
    · simp only [callRound, if_neg h] at hs
      rcases List.mem_cons.mp hs with rfl | hs
      · exact ⟨c, List.mem_cons_self _ _, rfl⟩
      · obtain ⟨c', hc', hsend⟩ :=
          ih { st with call_notified_caregiver_ids := st.call_notified_caregiver_ids ++ [c.id] } s hs
        exact ⟨c', List.mem_cons_of_mem _ hc', hsend⟩

/-! ### Frame lemmas for `trigger_fanout` -/

theorem trigger_caregiver_db (sf cf : String → Bool) (sid : String) (now : Nat)
    (σ : SystemState) :
    (trigger_fanout sf cf sid now σ).sys.caregiver_db = σ.caregiver_db := by
  unfold trigger_fanout
  cases hs : σ.shift_db sid
  · rfl
  · cases hf : σ.fanout_db sid <;> dsimp only <;> split_ifs <;> rfl

theorem trigger_shift_db (sf cf : String → Bool) (sid : String) (now : Nat)
    (σ : SystemState) :
    (trigger_fanout sf cf sid now σ).sys.shift_db = σ.shift_db := by
  unfold trigger_fanout
  cases hs : σ.shift_db sid
  · rfl
  · cases hf : σ.fanout_db sid <;> dsimp only <;> split_ifs <;> rfl

theorem trigger_other_key (sf cf : String → Bool) (sid : String) (now : Nat)
    (σ : SystemState) (k : String) (hk : k ≠ sid) :
    (trigger_fanout sf cf sid now σ).sys.fanout_db k = σ.fanout_db k := by
  unfold trigger_fanout
  cases hs : σ.shift_db sid
  · rfl
  · cases hf : σ.fanout_db sid <;> dsimp only <;> split_ifs <;> simp [putF, hk]

theorem trigger_fanout_frame (sf cf : String → Bool) (sid : String) (now : Nat)
    (σ : SystemState) (st : ShiftFanoutState) (hf : σ.fanout_db sid = some st) :
    ∃ st', (trigger_fanout sf cf sid now σ).sys.fanout_db sid = some st' ∧
      st'.claimed_caregiver_id = st.claimed_caregiver_id ∧
      st'.started_at = st.started_at ∧
      st'.shift_id = st.shift_id ∧
      (∃ t, st'.sms_notified_caregiver_ids = st.sms_notified_caregiver_ids ++ t) ∧
      (∃ t, st'.call_notified_caregiver_ids = st.call_notified_caregiver_ids ++ t) ∧
      (st.escalated_to_call = true → st'.escalated_to_call = true ∧
        st'.call_notified_caregiver_ids = st.call_notified_caregiver_ids) ∧
      (st.escalated_to_call = false → now < st.started_at + escalationDelay →
        st'.escalated_to_call = false) := by
  unfold trigger_fanout
  cases hs : σ.shift_db sid with
  | none =>
    exact ⟨st, hf, rfl, rfl, rfl, ⟨[], by simp⟩, ⟨[], by simp⟩,
      fun h => ⟨h, rfl⟩, fun h _ => h⟩
  | some shift =>
    rw [hf]
    dsimp only
    by_cases hcl : truthy st.claimed_caregiver_id
    · rw [if_pos hcl]
      exact ⟨st, hf, rfl, rfl, rfl, ⟨[], by simp⟩, ⟨[], by simp⟩,
        fun h => ⟨h, rfl⟩, fun h _ => h⟩
    · rw [if_neg hcl]
      set el := σ.caregiver_db.filter (fun c => c.role == shift.role_required) with hel
      set st1 := (smsRound shift.id el st).1 with hst1
      obtain ⟨f1s, f1e, f1c, f1call, f1id⟩ := smsRound_fields shift.id el st
      obtain ⟨t1, ht1, -⟩ := smsRound_sms_append shift.id el st
      have g1s : st1.started_at = st.started_at := f1s
      have g1e : st1.escalated_to_call = st.escalated_to_call := f1e
      have g1c : st1.claimed_caregiver_id = st.claimed_caregiver_id := f1c
      have g1call : st1.call_notified_caregiver_ids = st.call_notified_caregiver_ids :=
        f1call
      have g1id : st1.shift_id = st.shift_id := f1id
      have g1sms : st1.sms_notified_caregiver_ids =
          st.sms_notified_caregiver_ids ++ t1 := ht1
      set st2 : ShiftFanoutState := { st1 with escalated_to_call := true } with hst2
      set st3 := (callRound shift.id el st2).1 with hst3
      obtain ⟨f3s, f3e, f3c, f3sms, f3id⟩ := callRound_fields shift.id el st2
      obtain ⟨t3, ht3, -⟩ := callRound_call_append shift.id el st2
      have g3s : st3.started_at = st.started_at := f3s.trans g1s
      have g3e : st3.escalated_to_call = true := f3e
      have g3c : st3.claimed_caregiver_id = st.claimed_caregiver_id := f3c.trans g1c
      have g3sms : st3.sms_notified_caregiver_ids =
          st.sms_notified_caregiver_ids ++ t1 := f3sms.trans g1sms
      have g3id : st3.shift_id = st.shift_id := f3id.trans g1id
      have g3call : st3.call_notified_caregiver_ids =
          st.call_notified_caregiver_ids ++ t3 := by
        have h2 : st2.call_notified_caregiver_ids = st.call_notified_caregiver_ids :=
          g1call
        exact ht3.trans (by rw [h2])
      split_ifs with hfail hcond hcfail
      · exact ⟨st1, by simp [putF], g1c, g1s, g1id, ⟨t1, g1sms⟩,
          ⟨[], by simp [g1call]⟩,
          fun h => ⟨g1e.trans h, g1call⟩,
          fun h _ => g1e.trans h⟩
      · refine ⟨st3, by simp [putF], g3c, g3s, g3id, ⟨t1, g3sms⟩, ⟨t3, g3call⟩,
          ?_, ?_⟩
        · intro h
          exact absurd (g1e.trans h) hcond.2
        · intro h hlt
          have := hcond.1
          rw [g1s] at this
          omega
      · refine ⟨st3, by simp [putF], g3c, g3s, g3id, ⟨t1, g3sms⟩, ⟨t3, g3call⟩,
          ?_, ?_⟩
        · intro h
          exact absurd (g1e.trans h) hcond.2
        · intro h hlt
          have := hcond.1
          rw [g1s] at this
          omega
      · exact ⟨st1, by simp [putF], g1c, g1s, g1id, ⟨t1, g1sms⟩,
          ⟨[], by simp [g1call]⟩,
          fun h => ⟨g1e.trans h, g1call⟩,
          fun h _ => g1e.trans h⟩

/-- The SMS markings recorded for a shift before a call (empty when no
fanout state exists yet). -/
def preSms (σ : SystemState) (sid : String) : List String :=
  match σ.fanout_db sid with
  | some st => st.sms_notified_caregiver_ids
  | none => []

/-- Whether the fanout state stored for a shift carries a truthy claim
pointer (the guard of `trigger_fanout`'s early return). -/
def claimTruthy (σ : SystemState) (sid : String) : Bool :=
  match σ.fanout_db sid with
  | some st => truthy st.claimed_caregiver_id
  | none => false

theorem trigger_no_call_sends_of_escalated (sf cf : String → Bool) (sid : String)
    (now : Nat) (σ : SystemState) (st : ShiftFanoutState)
    (hf : σ.fanout_db sid = some st) (he : st.escalated_to_call = true) :
    ∀ s ∈ (trigger_fanout sf cf sid now σ).sends, s.channel = ContactChannel.sms := by
  unfold trigger_fanout
  cases hs : σ.shift_db sid with
  | none => intro s h; cases h
  | some shift =>
    rw [hf]
    dsimp only
    by_cases hcl : truthy st.claimed_caregiver_id
    · rw [if_pos hcl]; intro s h; cases h
    · rw [if_neg hcl]
      set el := σ.caregiver_db.filter (fun c => c.role == shift.role_required) with hel
      have g1e : (smsRound shift.id el st).1.escalated_to_call = true :=
        (smsRound_fields shift.id el st).2.1.trans he
      split_ifs with hfail hcond hcfail
      · intro s hm
        obtain ⟨c, -, rfl⟩ := smsRound_sends_shape shift.id el st s hm
        rfl
      · exact absurd g1e hcond.2
      · exact absurd g1e hcond.2
      · intro s hm
        obtain ⟨c, -, rfl⟩ := smsRound_sends_shape shift.id el st s hm
        rfl

theorem trigger_call_send_message (sf cf : String → Bool) (sid : String)
    (now : Nat) (σ : SystemState) :
    ∀ s ∈ (trigger_fanout sf cf sid now σ).sends, s.channel = ContactChannel.call →
      ∃ shift, σ.shift_db sid = some shift ∧ s.message = callMessage shift.id := by
  unfold trigger_fanout
  cases hs : σ.shift_db sid with
  | none => intro s h; cases h
  | some shift =>
    dsimp only
    have hsms : ∀ (st0 : ShiftFanoutState) s,
        s ∈ (smsRound shift.id
              (σ.caregiver_db.filter (fun c => c.role == shift.role_required)) st0).2 →
        s.channel = ContactChannel.call → False := by
      intro st0 s hm hc
      obtain ⟨c, -, rfl⟩ := smsRound_sends_shape shift.id _ st0 s hm
      simp at hc
    have hcall : ∀ (st0 : ShiftFanoutState) s,
        s ∈ (callRound shift.id
              (σ.caregiver_db.filter (fun c => c.role == shift.role_required)) st0).2 →
        s.message = callMessage shift.id := by
      intro st0 s hm
      obtain ⟨c, -, rfl⟩ := callRound_sends_shape shift.id _ st0 s hm
      rfl
    cases hfan : σ.fanout_db sid
    all_goals dsimp only
    all_goals split_ifs
    all_goals intro s hm hc
    all_goals dsimp only at hm
    all_goals
      first
      | cases hm
      | exact (hsms _ s hm hc).elim
      | (rcases List.mem_append.mp hm with hm' | hm'
         · exact (hsms _ s hm' hc).elim
         · exact ⟨shift, rfl, hcall _ s hm'⟩)

theorem trigger_sendFailure_isolated (sf cf : String → Bool) (sid : String)
    (now : Nat) (σ : SystemState) (shift : Shift) (c : Caregiver)
    (hs : σ.shift_db sid = some shift)
    (hct : claimTruthy σ sid = false)
    (hnd : ((σ.caregiver_db.filter
        (fun x => x.role == shift.role_required)).map Caregiver.id).Nodup)
    (hc : c ∈ σ.caregiver_db) (hrole : c.role = shift.role_required)
    (hcm : c.id ∉ preSms σ sid) (hfail : sf c.phone = true) :
    (trigger_fanout sf cf sid now σ).outcome = FanoutOutcome.sendFailed ∧
    (∀ c' ∈ σ.caregiver_db, c'.role = shift.role_required →
      c'.id ∉ preSms σ sid →
      (⟨ContactChannel.sms, c'.phone, smsMessage shift.id⟩ : Send) ∈
        (trigger_fanout sf cf sid now σ).sends) ∧
    ∃ st', (trigger_fanout sf cf sid now σ).sys.fanout_db sid = some st' ∧
      ∀ c' ∈ σ.caregiver_db, c'.role = shift.role_required →
        c'.id ∈ st'.sms_notified_caregiver_ids := by
  unfold trigger_fanout
  rw [hs]
  dsimp only
  unfold claimTruthy at hct
  unfold preSms at hcm ⊢
  cases hfan : σ.fanout_db sid with
  | some st =>
    rw [hfan] at hct hcm
    dsimp only at hct hcm ⊢
    rw [if_neg (by simp [hct])]
    set el := σ.caregiver_db.filter (fun x => x.role == shift.role_required) with hel
    have hcel : c ∈ el := List.mem_filter.mpr ⟨hc, by simp [hrole]⟩
    have hsend : (⟨ContactChannel.sms, c.phone, smsMessage shift.id⟩ : Send) ∈
        (smsRound shift.id el st).2 :=
      smsRound_send_of_unmarked shift.id el st hnd c hcel hcm
    have hany : ((smsRound shift.id el st).2.any fun s => sf s.phone) = true :=
      List.any_eq_true.mpr ⟨_, hsend, hfail⟩
    rw [if_pos hany]
    refine ⟨rfl, ?_, ?_⟩
    · intro c' hc' hrole' hcm'
      exact smsRound_send_of_unmarked shift.id el st hnd c'
        (List.mem_filter.mpr ⟨hc', by simp [hrole']⟩) hcm'
    · refine ⟨(smsRound shift.id el st).1, by simp [putF], ?_⟩
      intro c' hc' hrole'
      exact smsRound_complete shift.id el st c'
        (List.mem_filter.mpr ⟨hc', by simp [hrole']⟩)
  | none =>
    rw [hfan] at hcm
    dsimp only at hcm ⊢
    rw [if_neg (by simp [truthy])]
    set st0 : ShiftFanoutState := ⟨sid, now, [], [], none, false⟩ with hst0
    set el := σ.caregiver_db.filter (fun x => x.role == shift.role_required) with hel
    have hcel : c ∈ el := List.mem_filter.mpr ⟨hc, by simp [hrole]⟩
    have hsend : (⟨ContactChannel.sms, c.phone, smsMessage shift.id⟩ : Send) ∈
        (smsRound shift.id el st0).2 :=
      smsRound_send_of_unmarked shift.id el st0 hnd c hcel (by simp [hst0])
    have hany : ((smsRound shift.id el st0).2.any fun s => sf s.phone) = true :=
      List.any_eq_true.mpr ⟨_, hsend, hfail⟩
    rw [if_pos hany]
    refine ⟨rfl, ?_, ?_⟩
    · intro c' hc' hrole' hcm'
      exact smsRound_send_of_unmarked shift.id el st0 hnd c'
        (List.mem_filter.mpr ⟨hc', by simp [hrole']⟩) (by simp [hst0])
    · refine ⟨(smsRound shift.id el st0).1, by simp [putF], ?_⟩
      intro c' hc' hrole'
      exact smsRound_complete shift.id el st0 c'
        (List.mem_filter.mpr ⟨hc', by simp [hrole']⟩)

theorem trigger_mark_src (sf cf : String → Bool) (sid : String) (now : Nat)
    (σ : SystemState) (st' : ShiftFanoutState)
    (h : (trigger_fanout sf cf sid now σ).sys.fanout_db sid = some st') :
    ∀ cid, (cid ∈ st'.sms_notified_caregiver_ids ∨
        cid ∈ st'.call_notified_caregiver_ids) →
      (∃ st, σ.fanout_db sid = some st ∧
        (cid ∈ st.sms_notified_caregiver_ids ∨
         cid ∈ st.call_notified_caregiver_ids)) ∨
      (∃ shift c, σ.shift_db sid = some shift ∧ c ∈ σ.caregiver_db ∧
        c.role = shift.role_required ∧ c.id = cid) := by
  unfold trigger_fanout at h
  cases hs : σ.shift_db sid with
  | none =>
    rw [hs] at h
    dsimp only at h
    exact fun cid hm => Or.inl ⟨st', h, hm⟩
  | some shift =>
    rw [hs] at h
    dsimp only at h
    cases hfan : σ.fanout_db sid with
    | some st =>
      rw [hfan] at h
      dsimp only at h
      by_cases hcl : truthy st.claimed_caregiver_id
      · rw [if_pos hcl] at h
        dsimp only at h
        rw [hfan] at h
        obtain rfl : st = st' := by simpa using h
        exact fun cid hm => Or.inl ⟨st, rfl, hm⟩
      · rw [if_neg hcl] at h
        set el := σ.caregiver_db.filter (fun c => c.role == shift.role_required) with hel
        have elsrc : ∀ x, (∃ c ∈ el, c.id = x) →
            ∃ shift_1 c, (some shift = some shift_1 ∧ c ∈ σ.caregiver_db ∧
              c.role = shift_1.role_required ∧ c.id = x) := by
          intro x ⟨c, hcel, hcid⟩
          rw [hel] at hcel
          obtain ⟨hcg, hrole⟩ := List.mem_filter.mp hcel
          exact ⟨shift, c, rfl, hcg, by simpa using hrole, hcid⟩
        obtain ⟨f1s, f1e, f1c, f1call, f1id⟩ := smsRound_fields shift.id el st
        obtain ⟨t1, ht1, hprov1⟩ := smsRound_sms_append shift.id el st
        split_ifs at h with hfail hcond hcfail
        · simp [putF] at h
          subst h
          intro cid hm
          rcases hm with hm | hm
          · rw [ht1] at hm
            rcases List.mem_append.mp hm with hm | hm
            · exact Or.inl ⟨st, rfl, Or.inl hm⟩
            · exact Or.inr (elsrc cid (hprov1 cid hm))
          · rw [f1call] at hm
            exact Or.inl ⟨st, rfl, Or.inr hm⟩
        all_goals (try (
          set st2 : ShiftFanoutState :=
            { (smsRound shift.id el st).1 with escalated_to_call := true } with hst2
          obtain ⟨f3s, f3e, f3c, f3sms, f3id⟩ := callRound_fields shift.id el st2
          obtain ⟨t3, ht3, hprov3⟩ := callRound_call_append shift.id el st2
          simp [putF] at h
          subst h
          intro cid hm
          rcases hm with hm | hm
          · rw [f3sms] at hm
            have hm' : cid ∈ (smsRound shift.id el st).1.sms_notified_caregiver_ids := by
              simpa [hst2] using hm
            rw [ht1] at hm'
            rcases List.mem_append.mp hm' with hm'' | hm''
            · exact Or.inl ⟨st, rfl, Or.inl hm''⟩
            · exact Or.inr (elsrc cid (hprov1 cid hm''))
          · rw [ht3] at hm
            rcases List.mem_append.mp hm with hm' | hm'
            · have hm'' : cid ∈ (smsRound shift.id el st).1.call_notified_caregiver_ids := by
                simpa [hst2] using hm'
              rw [f1call] at hm''
              exact Or.inl ⟨st, rfl, Or.inr hm''⟩
            · exact Or.inr (elsrc cid (hprov3 cid hm'))))
        · simp [putF] at h
          subst h
          intro cid hm
          rcases hm with hm | hm
          · rw [ht1] at hm
            rcases List.mem_append.mp hm with hm | hm
            · exact Or.inl ⟨st, rfl, Or.inl hm⟩
            · exact Or.inr (elsrc cid (hprov1 cid hm))
          · rw [f1call] at hm
            exact Or.inl ⟨st, rfl, Or.inr hm⟩
    | none =>
      rw [hfan] at h
      dsimp only at h
      rw [if_neg (by simp [truthy])] at h
      set st0 : ShiftFanoutState := ⟨sid, now, [], [], none, false⟩ with hst0
      set el := σ.caregiver_db.filter (fun c => c.role == shift.role_required) with hel
      have elsrc : ∀ x, (∃ c ∈ el, c.id = x) →
          (∃ st, (none : Option ShiftFanoutState) = some st ∧
            (x ∈ st.sms_notified_caregiver_ids ∨
             x ∈ st.call_notified_caregiver_ids)) ∨
          ∃ shift_1 c, (some shift = some shift_1 ∧ c ∈ σ.caregiver_db ∧
            c.role = shift_1.role_required ∧ c.id = x) := by
        intro x ⟨c, hcel, hcid⟩
        rw [hel] at hcel
        obtain ⟨hcg, hrole⟩ := List.mem_filter.mp hcel
        exact Or.inr ⟨shift, c, rfl, hcg, by simpa using hrole, hcid⟩
      obtain ⟨f1s, f1e, f1c, f1call, f1id⟩ := smsRound_fields shift.id el st0
      obtain ⟨t1, ht1, hprov1⟩ := smsRound_sms_append shift.id el st0
      have hsms0 : st0.sms_notified_caregiver_ids = [] := rfl
      have hcall0 : st0.call_notified_caregiver_ids = [] := rfl
      split_ifs at h with hfail hcond hcfail
      · simp [putF] at h
        subst h
        intro cid hm
        rcases hm with hm | hm
        · rw [ht1, hsms0] at hm
          exact elsrc cid (hprov1 cid (by simpa using hm))
        · rw [f1call, hcall0] at hm
          cases hm
      all_goals (try (
        set st2 : ShiftFanoutState :=
          { (smsRound shift.id el st0).1 with escalated_to_call := true } with hst2
        obtain ⟨f3s, f3e, f3c, f3sms, f3id⟩ := callRound_fields shift.id el st2
        obtain ⟨t3, ht3, hprov3⟩ := callRound_call_append shift.id el st2
        simp [putF] at h
        subst h
        intro cid hm
        rcases hm with hm | hm
        · rw [f3sms] at hm
          have hm' : cid ∈ (smsRound shift.id el st0).1.sms_notified_caregiver_ids := by
            simpa [hst2] using hm
          rw [ht1, hsms0] at hm'
          exact elsrc cid (hprov1 cid (by simpa using hm'))
        · rw [ht3] at hm
          rcases List.mem_append.mp hm with hm' | hm'
          · have hm'' : cid ∈ (smsRound shift.id el st0).1.call_notified_caregiver_ids := by
              simpa [hst2] using hm'
            rw [f1call, hcall0] at hm''
            cases hm''
          · exact elsrc cid (hprov3 cid hm')))
      · simp [putF] at h
        subst h
        intro cid hm
        rcases hm with hm | hm
        · rw [ht1, hsms0] at hm
          exact elsrc cid (hprov1 cid (by simpa using hm))
        · rw [f1call, hcall0] at hm
          cases hm

theorem SystemState.ext' (a b : SystemState)
    (h1 : a.caregiver_db = b.caregiver_db) (h2 : a.shift_db = b.shift_db)
    (h3 : a.fanout_db = b.fanout_db) : a = b := by
  cases a
  cases b
  simp_all

theorem putF_self {α : Type} (f : String → Option α) (k : String) (v : α)
    (h : f k = some v) : putF f k v = f := by
  funext k'
  unfold putF
  split_ifs with h'
  · rw [h']
    exact h.symm
  · rfl

theorem trigger_ok_inv (sf cf : String → Bool) (sid : String) (now : Nat)
    (σ : SystemState) (st1 : ShiftFanoutState)
    (h : (trigger_fanout sf cf sid now σ).outcome = FanoutOutcome.ok st1) :
    (trigger_fanout sf cf sid now σ).sys.fanout_db sid = some st1 ∧
    ∃ shift, σ.shift_db sid = some shift ∧
      (truthy st1.claimed_caregiver_id = true ∨
        (truthy st1.claimed_caregiver_id = false ∧
         (∀ c ∈ σ.caregiver_db.filter (fun x => x.role == shift.role_required),
            c.id ∈ st1.sms_notified_caregiver_ids) ∧
         ¬(st1.started_at + escalationDelay ≤ now ∧
            ¬st1.escalated_to_call = true))) := by
  unfold trigger_fanout at h ⊢
  cases hs : σ.shift_db sid with
  | none =>
    rw [hs] at h
    cases h
  | some shift =>
    rw [hs] at h
    dsimp only at h ⊢
    cases hfan : σ.fanout_db sid with
    | some st =>
      try rw [hfan] at h
      try rw [hfan]
      dsimp only at h ⊢
      by_cases hcl : truthy st.claimed_caregiver_id
      · rw [if_pos hcl] at h ⊢
        dsimp only at h
        obtain rfl : st = st1 := by simpa using h
        exact ⟨hfan, shift, rfl, Or.inl hcl⟩
      · rw [if_neg hcl] at h ⊢
        set el := σ.caregiver_db.filter (fun x => x.role == shift.role_required) with hel
        obtain ⟨f1s, f1e, f1c, f1call, f1id⟩ := smsRound_fields shift.id el st
        set st2 : ShiftFanoutState :=
          { (smsRound shift.id el st).1 with escalated_to_call := true } with hst2
        obtain ⟨f3s, f3e, f3c, f3sms, f3id⟩ := callRound_fields shift.id el st2
        have g1all : ∀ c ∈ el,
            c.id ∈ (smsRound shift.id el st).1.sms_notified_caregiver_ids :=
          smsRound_complete shift.id el st
        have g1cl : truthy (smsRound shift.id el st).1.claimed_caregiver_id = false := by
          rw [f1c]
          simpa using hcl
        have g3c : (callRound shift.id el st2).1.claimed_caregiver_id =
            st.claimed_caregiver_id := f3c.trans f1c
        have g3cl : truthy (callRound shift.id el st2).1.claimed_caregiver_id = false := by
          rw [g3c]
          simpa using hcl
        have g3esc : (callRound shift.id el st2).1.escalated_to_call = true := f3e
        have g3sms : ∀ c ∈ el,
            c.id ∈ (callRound shift.id el st2).1.sms_notified_caregiver_ids := by
          intro c hcel
          rw [f3sms]
          exact smsRound_complete shift.id el st c hcel
        split_ifs at h ⊢ with hfail hcond hcfail
        all_goals cases h
        all_goals
          first
          | exact ⟨by simp [putF], shift, rfl, Or.inr ⟨g1cl, g1all, hcond⟩⟩
          | exact ⟨by simp [putF], shift, rfl, Or.inr ⟨g3cl, g3sms, by simp [g3esc]⟩⟩
    | none =>
      try rw [hfan] at h
      try rw [hfan]
      dsimp only at h ⊢
      rw [if_neg (by simp [truthy])] at h ⊢
      set st0 : ShiftFanoutState := ⟨sid, now, [], [], none, false⟩ with hst0
      set el := σ.caregiver_db.filter (fun x => x.role == shift.role_required) with hel
      obtain ⟨f1s, f1e, f1c, f1call, f1id⟩ := smsRound_fields shift.id el st0
      set st2 : ShiftFanoutState :=
        { (smsRound shift.id el st0).1 with escalated_to_call := true } with hst2
      obtain ⟨f3s, f3e, f3c, f3sms, f3id⟩ := callRound_fields shift.id el st2
      have hcl0 : truthy st0.claimed_caregiver_id = false := by
        rw [hst0]
        simp [truthy]
      have g1all : ∀ c ∈ el,
          c.id ∈ (smsRound shift.id el st0).1.sms_notified_caregiver_ids :=
        smsRound_complete shift.id el st0
      have g1cl : truthy (smsRound shift.id el st0).1.claimed_caregiver_id = false := by
        rw [f1c]
        exact hcl0
      have g3c : (callRound shift.id el st2).1.claimed_caregiver_id =
          st0.claimed_caregiver_id := f3c.trans f1c
      have g3cl : truthy (callRound shift.id el st2).1.claimed_caregiver_id = false := by
        rw [g3c]
        exact hcl0
      have g3esc : (callRound shift.id el st2).1.escalated_to_call = true := f3e
      have g3sms : ∀ c ∈ el,
          c.id ∈ (callRound shift.id el st2).1.sms_notified_caregiver_ids := by
        intro c hcel
        rw [f3sms]
        exact smsRound_complete shift.id el st0 c hcel
      split_ifs at h ⊢ with hfail hcond hcfail
      all_goals cases h
      all_goals
        first
        | exact ⟨by simp [putF], shift, rfl, Or.inr ⟨g1cl, g1all, hcond⟩⟩
        | exact ⟨by simp [putF], shift, rfl, Or.inr ⟨g3cl, g3sms, by simp [g3esc]⟩⟩

theorem trigger_noop (sf cf : String → Bool) (sid : String) (now : Nat)
    (σ : SystemState) (st1 : ShiftFanoutState) (shift : Shift)
    (hentry : σ.fanout_db sid = some st1)
    (hs : σ.shift_db sid = some shift)
    (hq : truthy st1.claimed_caregiver_id = true ∨
      ((∀ c ∈ σ.caregiver_db.filter (fun x => x.role == shift.role_required),
          c.id ∈ st1.sms_notified_caregiver_ids) ∧
       ¬(st1.started_at + escalationDelay ≤ now ∧
          ¬st1.escalated_to_call = true))) :
    trigger_fanout sf cf sid now σ = ⟨FanoutOutcome.ok st1, σ, []⟩ := by
  unfold trigger_fanout
  rw [hs, hentry]
  dsimp only
  rcases hq with hcl | ⟨hall, hcond⟩
  · rw [if_pos hcl]
  · by_cases hcl : truthy st1.claimed_caregiver_id
    · rw [if_pos hcl]
    · rw [if_neg hcl]
      rw [smsRound_done shift.id _ st1 hall]
      dsimp only
      rw [if_neg (by simp), if_neg hcond]
      have : putF σ.fanout_db sid st1 = σ.fanout_db := putF_self _ _ _ hentry
      congr 1
      exact SystemState.ext' _ _ rfl rfl this

theorem advance_flips (sid : String) (now : Nat) (σ : SystemState)
    (st : ShiftFanoutState) (shift : Shift)
    (hs : σ.shift_db sid = some shift) (hf : σ.fanout_db sid = some st)
    (hcl : st.claimed_caregiver_id = none) (hesc : st.escalated_to_call = false)
    (hb : st.started_at + escalationDelay ≤ now) :
    ∃ st', (advance sid now σ).outcome = FanoutOutcome.ok st' ∧
      (advance sid now σ).sys.fanout_db sid = some st' ∧
      st'.escalated_to_call = true ∧ st'.started_at = st.started_at := by
  unfold advance trigger_fanout
  rw [hs, hf]
  dsimp only
  rw [if_neg (by simp [hcl, truthy])]
  set el := σ.caregiver_db.filter (fun c => c.role == shift.role_required) with hel
  obtain ⟨f1s, f1e, f1c, f1call, f1id⟩ := smsRound_fields shift.id el st
  rw [if_neg (by simp [noFail])]
  rw [if_pos (⟨by rw [f1s]; exact hb, by rw [f1e]; simp [hesc]⟩ :
    (smsRound shift.id el st).1.started_at + escalationDelay ≤ now ∧
      ¬(smsRound shift.id el st).1.escalated_to_call = true)]
  set st2 : ShiftFanoutState :=
    { (smsRound shift.id el st).1 with escalated_to_call := true } with hst2
  obtain ⟨f3s, f3e, f3c, f3sms, f3id⟩ := callRound_fields shift.id el st2
  rw [if_neg (by simp [noFail])]
  refine ⟨(callRound shift.id el st2).1, rfl, by simp [putF], f3e, ?_⟩
  exact f3s.trans f1s

/-! ### Equation lemmas for `receive_message`, one per control-flow branch -/

theorem receive_eq_no_caregiver (classify : String → ShiftRequestMessageIntent)
    (now : Nat) (fp sid b : String) (σ : SystemState)
    (hfind : σ.caregiver_db.find? (fun c => c.phone == fp) = none) :
    receive_message classify now fp sid b σ =
      ⟨InboundOutcome.notFound "Caregiver not found", σ⟩ := by
  unfold receive_message
  rw [hfind]

theorem receive_eq_no_shift (classify : String → ShiftRequestMessageIntent)
    (now : Nat) (fp sid b : String) (σ : SystemState) (cg : Caregiver)
    (hfind : σ.caregiver_db.find? (fun c => c.phone == fp) = some cg)
    (hsh : σ.shift_db sid = none) :
    receive_message classify now fp sid b σ =
      ⟨InboundOutcome.notFound "Shift not found", σ⟩ := by
  unfold receive_message
  rw [hfind, hsh]

theorem receive_eq_ineligible (classify : String → ShiftRequestMessageIntent)
    (now : Nat) (fp sid b : String) (σ : SystemState) (cg : Caregiver)
    (shift : Shift)
    (hfind : σ.caregiver_db.find? (fun c => c.phone == fp) = some cg)
    (hsh : σ.shift_db sid = some shift)
    (hrole : shift.role_required ≠ cg.role) :
    receive_message classify now fp sid b σ =
      ⟨InboundOutcome.resp ⟨false, "Not eligible for this shift role", shift.id,
        shift.claimed_by_caregiver_id⟩, σ⟩ := by
  unfold receive_message
  rw [hfind, hsh]
  dsimp only
  rw [if_pos hrole]

theorem receive_eq_decline (classify : String → ShiftRequestMessageIntent)
    (now : Nat) (fp sid b : String) (σ : SystemState) (cg : Caregiver)
    (shift : Shift)
    (hfind : σ.caregiver_db.find? (fun c => c.phone == fp) = some cg)
    (hsh : σ.shift_db sid = some shift)
    (hrole : ¬shift.role_required ≠ cg.role)
    (hint : classify b = ShiftRequestMessageIntent.decline) :
    receive_message classify now fp sid b σ =
      ⟨InboundOutcome.resp ⟨false, "Shift declined", shift.id,
        shift.claimed_by_caregiver_id⟩, σ⟩ := by
  unfold receive_message
  rw [hfind, hsh]
  dsimp only
  rw [if_neg hrole, hint]

theorem receive_eq_unknown (classify : String → ShiftRequestMessageIntent)
    (now : Nat) (fp sid b : String) (σ : SystemState) (cg : Caregiver)
    (shift : Shift)
    (hfind : σ.caregiver_db.find? (fun c => c.phone == fp) = some cg)
    (hsh : σ.shift_db sid = some shift)
    (hrole : ¬shift.role_required ≠ cg.role)
    (hint : classify b = ShiftRequestMessageIntent.unknown) :
    receive_message classify now fp sid b σ =
      ⟨InboundOutcome.resp ⟨false, "Intent unknown", shift.id,
        shift.claimed_by_caregiver_id⟩, σ⟩ := by
  unfold receive_message
  rw [hfind, hsh]
  dsimp only
  rw [if_neg hrole, hint]

theorem receive_eq_already_claimed (classify : String → ShiftRequestMessageIntent)
    (now : Nat) (fp sid b : String) (σ : SystemState) (cg : Caregiver)
    (shift : Shift) (fs : ShiftFanoutState)
    (hfind : σ.caregiver_db.find? (fun c => c.phone == fp) = some cg)
    (hsh : σ.shift_db sid = some shift)
    (hrole : ¬shift.role_required ≠ cg.role)
    (hint : classify b = ShiftRequestMessageIntent.accept)
    (hfan : σ.fanout_db shift.id = some fs)
    (hsome : fs.claimed_caregiver_id.isSome) :
    receive_message classify now fp sid b σ =
      ⟨InboundOutcome.resp ⟨false, "Shift already claimed", shift.id,
        fs.claimed_caregiver_id⟩, σ⟩ := by
  unfold receive_message
  rw [hfind, hsh]
  dsimp only
  rw [if_neg hrole, hint]
  dsimp only
  rw [hfan]
  dsimp only
  rw [if_pos hsome]

theorem receive_eq_win_existing (classify : String → ShiftRequestMessageIntent)
    (now : Nat) (fp sid b : String) (σ : SystemState) (cg : Caregiver)
    (shift : Shift) (fs : ShiftFanoutState)
    (hfind : σ.caregiver_db.find? (fun c => c.phone == fp) = some cg)
    (hsh : σ.shift_db sid = some shift)
    (hrole : ¬shift.role_required ≠ cg.role)
    (hint : classify b = ShiftRequestMessageIntent.accept)
    (hfan : σ.fanout_db shift.id = some fs)
    (hnone : fs.claimed_caregiver_id = none) :
    receive_message classify now fp sid b σ =
      ⟨InboundOutcome.resp ⟨true, "Shift successfully claimed!", shift.id,
        some cg.id⟩,
       ⟨σ.caregiver_db,
        putF σ.shift_db shift.id { shift with claimed_by_caregiver_id := some cg.id },
        putF σ.fanout_db shift.id { fs with claimed_caregiver_id := some cg.id }⟩⟩ := by
  unfold receive_message
  rw [hfind, hsh]
  dsimp only
  rw [if_neg hrole, hint]
  dsimp only
  rw [hfan]
  dsimp only
  rw [if_neg (by simp [hnone])]

theorem receive_eq_win_fresh (classify : String → ShiftRequestMessageIntent)
    (now : Nat) (fp sid b : String) (σ : SystemState) (cg : Caregiver)
    (shift : Shift)
    (hfind : σ.caregiver_db.find? (fun c => c.phone == fp) = some cg)
    (hsh : σ.shift_db sid = some shift)
    (hrole : ¬shift.role_required ≠ cg.role)
    (hint : classify b = ShiftRequestMessageIntent.accept)
    (hfan : σ.fanout_db shift.id = none) :
    receive_message classify now fp sid b σ =
      ⟨InboundOutcome.resp ⟨true, "Shift successfully claimed!", shift.id,
        some cg.id⟩,
       ⟨σ.caregiver_db,
        putF σ.shift_db shift.id { shift with claimed_by_caregiver_id := some cg.id },
        putF (putF σ.fanout_db shift.id ⟨shift.id, now, [], [], none, false⟩)
          shift.id ⟨shift.id, now, [], [], some cg.id, false⟩⟩⟩ := by
  unfold receive_message
  rw [hfind, hsh]
  dsimp only
  rw [if_neg hrole, hint]
  dsimp only
  rw [hfan]
  dsimp only
  rw [if_neg (by simp)]

/-- Every stored shift sits under its own id as key (how `load_sample_data`
and the claim path populate `shift_db`). -/
def KeysConsistent (σ : SystemState) : Prop :=
  ∀ k shift, σ.shift_db k = some shift → shift.id = k

theorem receive_caregiver_db (classify : String → ShiftRequestMessageIntent)
    (now : Nat) (fp sid b : String) (σ : SystemState) :
    (receive_message classify now fp sid b σ).sys.caregiver_db = σ.caregiver_db := by
  cases hfind : σ.caregiver_db.find? (fun c => c.phone == fp) with
  | none => rw [receive_eq_no_caregiver classify now fp sid b σ hfind]
  | some cg =>
    cases hsh : σ.shift_db sid with
    | none => rw [receive_eq_no_shift classify now fp sid b σ cg hfind hsh]
    | some shift =>
      by_cases hrole : shift.role_required ≠ cg.role
      · rw [receive_eq_ineligible classify now fp sid b σ cg shift hfind hsh hrole]
      · cases hint : classify b with
        | decline =>
          rw [receive_eq_decline classify now fp sid b σ cg shift hfind hsh hrole hint]
        | unknown =>
          rw [receive_eq_unknown classify now fp sid b σ cg shift hfind hsh hrole hint]
        | accept =>
          cases hfan : σ.fanout_db shift.id with
          | none =>
            rw [receive_eq_win_fresh classify now fp sid b σ cg shift hfind hsh
              hrole hint hfan]
          | some fs =>
            by_cases hsome : fs.claimed_caregiver_id.isSome
            · rw [receive_eq_already_claimed classify now fp sid b σ cg shift fs
                hfind hsh hrole hint hfan hsome]
            · rw [receive_eq_win_existing classify now fp sid b σ cg shift fs
                hfind hsh hrole hint hfan (Option.not_isSome_iff_eq_none.mp hsome)]

theorem receive_fanout_frame (classify : String → ShiftRequestMessageIntent)
    (now : Nat) (fp sid b : String) (σ : SystemState) (k : String)
    (st : ShiftFanoutState) (hk : σ.fanout_db k = some st) :
    ∃ st', (receive_message classify now fp sid b σ).sys.fanout_db k = some st' ∧
      st'.sms_notified_caregiver_ids = st.sms_notified_caregiver_ids ∧
      st'.call_notified_caregiver_ids = st.call_notified_caregiver_ids ∧
      st'.escalated_to_call = st.escalated_to_call ∧
      st'.started_at = st.started_at ∧
      st'.shift_id = st.shift_id ∧
      (st'.claimed_caregiver_id = st.claimed_caregiver_id ∨
        (st.claimed_caregiver_id = none ∧
          ∃ cg, cg ∈ σ.caregiver_db ∧ st'.claimed_caregiver_id = some cg.id)) := by
  have triv : ∃ st', σ.fanout_db k = some st' ∧
      st'.sms_notified_caregiver_ids = st.sms_notified_caregiver_ids ∧
      st'.call_notified_caregiver_ids = st.call_notified_caregiver_ids ∧
      st'.escalated_to_call = st.escalated_to_call ∧
      st'.started_at = st.started_at ∧
      st'.shift_id = st.shift_id ∧
      (st'.claimed_caregiver_id = st.claimed_caregiver_id ∨
        (st.claimed_caregiver_id = none ∧
          ∃ cg, cg ∈ σ.caregiver_db ∧ st'.claimed_caregiver_id = some cg.id)) :=
    ⟨st, hk, rfl, rfl, rfl, rfl, rfl, Or.inl rfl⟩
  cases hfind : σ.caregiver_db.find? (fun c => c.phone == fp) with
  | none =>
    rw [receive_eq_no_caregiver classify now fp sid b σ hfind]
    exact triv
  | some cg =>
    have hcgmem : cg ∈ σ.caregiver_db := List.mem_of_find?_eq_some hfind
    cases hsh : σ.shift_db sid with
    | none =>
      rw [receive_eq_no_shift classify now fp sid b σ cg hfind hsh]
      exact triv
    | some shift =>
      by_cases hrole : shift.role_required ≠ cg.role
      · rw [receive_eq_ineligible classify now fp sid b σ cg shift hfind hsh hrole]
        exact triv
      · cases hint : classify b with
        | decline =>
          rw [receive_eq_decline classify now fp sid b σ cg shift hfind hsh hrole hint]
          exact triv
        | unknown =>
          rw [receive_eq_unknown classify now fp sid b σ cg shift hfind hsh hrole hint]
          exact triv
        | accept =>
          cases hfan : σ.fanout_db shift.id with
          | none =>
            rw [receive_eq_win_fresh classify now fp sid b σ cg shift hfind hsh
              hrole hint hfan]
            by_cases hkid : k = shift.id
            · rw [hkid] at hk
              rw [hk] at hfan
              cases hfan
            · exact ⟨st, by simp [putF, hkid, hk], rfl, rfl, rfl, rfl, rfl, Or.inl rfl⟩
          | some fs =>
            by_cases hsome : fs.claimed_caregiver_id.isSome
            · rw [receive_eq_already_claimed classify now fp sid b σ cg shift fs
                hfind hsh hrole hint hfan hsome]
              exact triv
            · have hnone := Option.not_isSome_iff_eq_none.mp hsome
              rw [receive_eq_win_existing classify now fp sid b σ cg shift fs
                hfind hsh hrole hint hfan hnone]
              by_cases hkid : k = shift.id
              · rw [hkid] at hk
                rw [hk] at hfan
                obtain rfl : st = fs := by simpa using hfan
                exact ⟨{ st with claimed_caregiver_id := some cg.id },
                  by simp [putF, hkid], rfl, rfl, rfl, rfl, rfl,
                  Or.inr ⟨hnone, cg, hcgmem, rfl⟩⟩
              · exact ⟨st, by simp [putF, hkid, hk], rfl, rfl, rfl, rfl, rfl,
                  Or.inl rfl⟩

theorem receive_claimed_frame (classify : String → ShiftRequestMessageIntent)
    (now : Nat) (fp sid b : String) (σ : SystemState) (k : String)
    (st : ShiftFanoutState) (hk : σ.fanout_db k = some st)
    (hsome : st.claimed_caregiver_id.isSome) :
    (receive_message classify now fp sid b σ).sys.fanout_db k = some st ∧
    (receive_message classify now fp sid b σ).sys.shift_db k = σ.shift_db k := by
  cases hfind : σ.caregiver_db.find? (fun c => c.phone == fp) with
  | none =>
    rw [receive_eq_no_caregiver classify now fp sid b σ hfind]
    exact ⟨hk, rfl⟩
  | some cg =>
    cases hsh : σ.shift_db sid with
    | none =>
      rw [receive_eq_no_shift classify now fp sid b σ cg hfind hsh]
      exact ⟨hk, rfl⟩
    | some shift =>
      by_cases hrole : shift.role_required ≠ cg.role
      · rw [receive_eq_ineligible classify now fp sid b σ cg shift hfind hsh hrole]
        exact ⟨hk, rfl⟩
      · cases hint : classify b with
        | decline =>
          rw [receive_eq_decline classify now fp sid b σ cg shift hfind hsh hrole hint]
          exact ⟨hk, rfl⟩
        | unknown =>
          rw [receive_eq_unknown classify now fp sid b σ cg shift hfind hsh hrole hint]
          exact ⟨hk, rfl⟩
        | accept =>
          cases hfan : σ.fanout_db shift.id with
          | none =>
            rw [receive_eq_win_fresh classify now fp sid b σ cg shift hfind hsh
              hrole hint hfan]
            by_cases hkid : k = shift.id
            · rw [hkid] at hk
              rw [hk] at hfan
              cases hfan
            · exact ⟨by simp [putF, hkid, hk], by simp [putF, hkid]⟩
          | some fs =>
            by_cases hsome' : fs.claimed_caregiver_id.isSome
            · rw [receive_eq_already_claimed classify now fp sid b σ cg shift fs
                hfind hsh hrole hint hfan hsome']
              exact ⟨hk, rfl⟩
            · have hnone := Option.not_isSome_iff_eq_none.mp hsome'
              rw [receive_eq_win_existing classify now fp sid b σ cg shift fs
                hfind hsh hrole hint hfan hnone]
              by_cases hkid : k = shift.id
              · rw [hkid] at hk
                rw [hk] at hfan
                obtain rfl : st = fs := by simpa using hfan
                rw [hnone] at hsome
                cases hsome
              · exact ⟨by simp [putF, hkid, hk], by simp [putF, hkid]⟩

theorem receive_shift_frame_consistent
    (classify : String → ShiftRequestMessageIntent) (now : Nat)
    (fp sid b : String) (σ : SystemState) (hwf : KeysConsistent σ) (k : String) :
    (receive_message classify now fp sid b σ).sys.shift_db k = σ.shift_db k ∨
    ∃ shift cg, σ.shift_db k = some shift ∧ cg ∈ σ.caregiver_db ∧
      (receive_message classify now fp sid b σ).sys.shift_db k =
        some { shift with claimed_by_caregiver_id := some cg.id } := by
  cases hfind : σ.caregiver_db.find? (fun c => c.phone == fp) with
  | none =>
    rw [receive_eq_no_caregiver classify now fp sid b σ hfind]
    exact Or.inl rfl
  | some cg =>
    have hcgmem : cg ∈ σ.caregiver_db := List.mem_of_find?_eq_some hfind
    cases hsh : σ.shift_db sid with
    | none =>
      rw [receive_eq_no_shift classify now fp sid b σ cg hfind hsh]
      exact Or.inl rfl
    | some shift =>
      have hid : shift.id = sid := hwf sid shift hsh
      by_cases hrole : shift.role_required ≠ cg.role
      · rw [receive_eq_ineligible classify now fp sid b σ cg shift hfind hsh hrole]
        exact Or.inl rfl
      · cases hint : classify b with
        | decline =>
          rw [receive_eq_decline classify now fp sid b σ cg shift hfind hsh hrole hint]
          exact Or.inl rfl
        | unknown =>
          rw [receive_eq_unknown classify now fp sid b σ cg shift hfind hsh hrole hint]
          exact Or.inl rfl
        | accept =>
          cases hfan : σ.fanout_db shift.id with
          | none =>
            rw [receive_eq_win_fresh classify now fp sid b σ cg shift hfind hsh
              hrole hint hfan]
            by_cases hkid : k = shift.id
            · refine Or.inr ⟨shift, cg, ?_, hcgmem, by simp [putF, hkid]⟩
              rw [hkid, hid]
              exact hsh
            · exact Or.inl (by simp [putF, hkid])
          | some fs =>
            by_cases hsome : fs.claimed_caregiver_id.isSome
            · rw [receive_eq_already_claimed classify now fp sid b σ cg shift fs
                hfind hsh hrole hint hfan hsome]
              exact Or.inl rfl
            · have hnone := Option.not_isSome_iff_eq_none.mp hsome
              rw [receive_eq_win_existing classify now fp sid b σ cg shift fs
                hfind hsh hrole hint hfan hnone]
              by_cases hkid : k = shift.id
              · refine Or.inr ⟨shift, cg, ?_, hcgmem, by simp [putF, hkid]⟩
                rw [hkid, hid]
                exact hsh
              · exact Or.inl (by simp [putF, hkid])

/-! ### Step- and run-level preservation lemmas -/

theorem callMessage_inj {a b : String} (h : callMessage a = callMessage b) :
    a = b := by
  unfold callMessage at h
  have hd := congrArg String.data h
  simp only [String.data_append] at hd
  have := List.append_cancel_left hd
  exact String.ext this

theorem stepOp_caregiver_db (classify : String → ShiftRequestMessageIntent)
    (sf cf : String → Bool) (σ : SystemState) (op : Op) :
    (stepOp classify sf cf σ op).1.caregiver_db = σ.caregiver_db := by
  cases op with
  | fanout sid now => exact trigger_caregiver_db sf cf sid now σ
  | inbound fp sid b now => exact receive_caregiver_db classify now fp sid b σ

theorem runOps_caregiver_db (classify : String → ShiftRequestMessageIntent)
    (sf cf : String → Bool) (ops : List Op) :
    ∀ σ : SystemState, (runOps classify sf cf σ ops).1.caregiver_db = σ.caregiver_db := by
  induction ops with
  | nil => intro σ; rfl
  | cons op rest ih =>
    intro σ
    show (runOps classify sf cf (stepOp classify sf cf σ op).1 rest).1.caregiver_db = _
    rw [ih, stepOp_caregiver_db]

theorem stepOp_keys_consistent (classify : String → ShiftRequestMessageIntent)
    (sf cf : String → Bool) (σ : SystemState) (op : Op)
    (hwf : KeysConsistent σ) : KeysConsistent (stepOp classify sf cf σ op).1 := by
  cases op with
  | fanout sid now =>
    intro k shift h
    rw [show (stepOp classify sf cf σ (Op.fanout sid now)).1.shift_db =
      σ.shift_db from trigger_shift_db sf cf sid now σ] at h
    exact hwf k shift h
  | inbound fp sid b now =>
    intro k shift h
    rcases receive_shift_frame_consistent classify now fp sid b σ hwf k with
      heq | ⟨shift', cg, hold, hmem, heq⟩
    · rw [show (stepOp classify sf cf σ (Op.inbound fp sid b now)).1.shift_db k =
        σ.shift_db k from heq] at h
      exact hwf k shift h
    · rw [show (stepOp classify sf cf σ (Op.inbound fp sid b now)).1.shift_db k =
        some { shift' with claimed_by_caregiver_id := some cg.id } from heq] at h
      obtain rfl : { shift' with claimed_by_caregiver_id := some cg.id } = shift := by
        simpa using h
      exact hwf k shift' hold

theorem runOps_keys_consistent (classify : String → ShiftRequestMessageIntent)
    (sf cf : String → Bool) (ops : List Op) :
    ∀ σ : SystemState, KeysConsistent σ →
      KeysConsistent (runOps classify sf cf σ ops).1 := by
  induction ops with
  | nil => intro σ hwf; exact hwf
  | cons op rest ih =>
    intro σ hwf
    exact ih _ (stepOp_keys_consistent classify sf cf σ op hwf)

theorem stepOp_claimed_frame (classify : String → ShiftRequestMessageIntent)
    (sf cf : String → Bool) (σ : SystemState) (op : Op) (k : String)
    (st : ShiftFanoutState) (cid : String)
    (hk : σ.fanout_db k = some st) (hc : st.claimed_caregiver_id = some cid) :
    ∃ st', (stepOp classify sf cf σ op).1.fanout_db k = some st' ∧
      st'.claimed_caregiver_id = some cid ∧
      (stepOp classify sf cf σ op).1.shift_db k = σ.shift_db k := by
  cases op with
  | fanout sid now =>
    by_cases hkid : k = sid
    · subst hkid
      obtain ⟨st', hentry, hcl, -, -, -, -, -, -⟩ :=
        trigger_fanout_frame sf cf k now σ st hk
      exact ⟨st', hentry, hcl.trans hc,
        congrFun (trigger_shift_db sf cf k now σ) k⟩
    · exact ⟨st, (trigger_other_key sf cf sid now σ k hkid).trans hk, hc,
        congrFun (trigger_shift_db sf cf sid now σ) k⟩
  | inbound fp sid b now =>
    obtain ⟨hentry, hsh⟩ := receive_claimed_frame classify now fp sid b σ k st hk
      (by rw [hc]; rfl)
    exact ⟨st, hentry, hc, hsh⟩

theorem runOps_claimed_frame (classify : String → ShiftRequestMessageIntent)
    (sf cf : String → Bool) (ops : List Op) :
    ∀ (σ : SystemState) (k : String) (st : ShiftFanoutState) (cid : String),
      σ.fanout_db k = some st → st.claimed_caregiver_id = some cid →
      ∃ st', (runOps classify sf cf σ ops).1.fanout_db k = some st' ∧
        st'.claimed_caregiver_id = some cid ∧
        (runOps classify sf cf σ ops).1.shift_db k = σ.shift_db k := by
  induction ops with
  | nil => intro σ k st cid hk hc; exact ⟨st, hk, hc, rfl⟩
  | cons op rest ih =>
    intro σ k st cid hk hc
    obtain ⟨st', hk', hc', hsh'⟩ := stepOp_claimed_frame classify sf cf σ op k st cid hk hc
    obtain ⟨st'', hk'', hc'', hsh''⟩ := ih _ k st' cid hk' hc'
    exact ⟨st'', hk'', hc'', hsh''.trans hsh'⟩

theorem stepOp_escalated_frozen (classify : String → ShiftRequestMessageIntent)
    (sf cf : String → Bool) (σ : SystemState) (op : Op) (k : String)
    (st : ShiftFanoutState) (hwf : KeysConsistent σ)
    (hk : σ.fanout_db k = some st) (he : st.escalated_to_call = true) :
    ∃ st', (stepOp classify sf cf σ op).1.fanout_db k = some st' ∧
      st'.escalated_to_call = true ∧
      st'.call_notified_caregiver_ids = st.call_notified_caregiver_ids ∧
      ∀ s ∈ (stepOp classify sf cf σ op).2, s.channel = ContactChannel.call →
        s.message ≠ callMessage k := by
  cases op with
  | fanout sid now =>
    by_cases hkid : k = sid
    · subst hkid
      obtain ⟨st', hentry, -, -, -, -, -, hfreeze, -⟩ :=
        trigger_fanout_frame sf cf k now σ st hk
      obtain ⟨hesc', hcall'⟩ := hfreeze he
      refine ⟨st', hentry, hesc', hcall', ?_⟩
      intro s hs hchan
      have := trigger_no_call_sends_of_escalated sf cf k now σ st hk he s hs
      rw [this] at hchan
      cases hchan
    · refine ⟨st, (trigger_other_key sf cf sid now σ k hkid).trans hk, he, rfl, ?_⟩
      intro s hs hchan hmsg
      obtain ⟨shift, hsh, hmsg'⟩ :=
        trigger_call_send_message sf cf sid now σ s hs hchan
      have hsid : shift.id = sid := hwf sid shift hsh
      rw [hmsg', hsid] at hmsg
      exact hkid (callMessage_inj hmsg).symm
  | inbound fp sid b now =>
    obtain ⟨st', hentry, -, hcall, hesc, -, -, -⟩ :=
      receive_fanout_frame classify now fp sid b σ k st hk
    exact ⟨st', hentry, hesc.trans he, hcall, fun s hs => by cases hs⟩

theorem runOps_escalated_frozen (classify : String → ShiftRequestMessageIntent)
    (sf cf : String → Bool) (ops : List Op) :
    ∀ (σ : SystemState) (k : String) (st : ShiftFanoutState),
      KeysConsistent σ → σ.fanout_db k = some st → st.escalated_to_call = true →
      ∃ st', (runOps classify sf cf σ ops).1.fanout_db k = some st' ∧
        st'.escalated_to_call = true ∧
        st'.call_notified_caregiver_ids = st.call_notified_caregiver_ids ∧
        ∀ s ∈ (runOps classify sf cf σ ops).2, s.channel = ContactChannel.call →
          s.message ≠ callMessage k := by
  induction ops with
  | nil =>
    intro σ k st hwf hk he
    exact ⟨st, hk, he, rfl, fun s hs => by cases hs⟩
  | cons op rest ih =>
    intro σ k st hwf hk he
    obtain ⟨st', hk', he', hcall', hsend'⟩ :=
      stepOp_escalated_frozen classify sf cf σ op k st hwf hk he
    obtain ⟨st'', hk'', he'', hcall'', hsend''⟩ :=
      ih _ k st' (stepOp_keys_consistent classify sf cf σ op hwf) hk' he'
    refine ⟨st'', hk'', he'', hcall''.trans hcall', ?_⟩
    intro s hs hchan
    show s.message ≠ callMessage k
    rcases List.mem_append.mp hs with hs' | hs'
    · exact hsend' s hs' hchan
    · exact hsend'' s hs' hchan

/-- Role-exclusion invariant: every identity marked in a shift's notified
sets belongs to a caregiver whose role matches that shift's required
role. -/
def RoleInv (σ : SystemState) : Prop :=
  ∀ k st, σ.fanout_db k = some st →
    ∀ cid, (cid ∈ st.sms_notified_caregiver_ids ∨
        cid ∈ st.call_notified_caregiver_ids) →
      ∃ shift c, σ.shift_db k = some shift ∧ c ∈ σ.caregiver_db ∧
        c.id = cid ∧ c.role = shift.role_required

theorem receive_fanout_entry_src (classify : String → ShiftRequestMessageIntent)
    (now : Nat) (fp sid b : String) (σ : SystemState) (k : String)
    (st' : ShiftFanoutState)
    (h : (receive_message classify now fp sid b σ).sys.fanout_db k = some st') :
    (∃ st, σ.fanout_db k = some st ∧
      st'.sms_notified_caregiver_ids = st.sms_notified_caregiver_ids ∧
      st'.call_notified_caregiver_ids = st.call_notified_caregiver_ids) ∨
    (st'.sms_notified_caregiver_ids = [] ∧
      st'.call_notified_caregiver_ids = []) := by
  cases hfind : σ.caregiver_db.find? (fun c => c.phone == fp) with
  | none =>
    rw [receive_eq_no_caregiver classify now fp sid b σ hfind] at h
    exact Or.inl ⟨st', h, rfl, rfl⟩
  | some cg =>
    cases hsh : σ.shift_db sid with
    | none =>
      rw [receive_eq_no_shift classify now fp sid b σ cg hfind hsh] at h
      exact Or.inl ⟨st', h, rfl, rfl⟩
    | some shift =>
      by_cases hrole : shift.role_required ≠ cg.role
      · rw [receive_eq_ineligible classify now fp sid b σ cg shift hfind hsh hrole] at h
        exact Or.inl ⟨st', h, rfl, rfl⟩
      · cases hint : classify b with
        | decline =>
          rw [receive_eq_decline classify now fp sid b σ cg shift hfind hsh hrole hint] at h
          exact Or.inl ⟨st', h, rfl, rfl⟩
        | unknown =>
          rw [receive_eq_unknown classify now fp sid b σ cg shift hfind hsh hrole hint] at h
          exact Or.inl ⟨st', h, rfl, rfl⟩
        | accept =>
          cases hfan : σ.fanout_db shift.id with
          | none =>
            rw [receive_eq_win_fresh classify now fp sid b σ cg shift hfind hsh
              hrole hint hfan] at h
            by_cases hkid : k = shift.id
            · subst hkid
              obtain rfl : (⟨shift.id, now, [], [], some cg.id, false⟩ : ShiftFanoutState) = st' := by
                simpa [putF] using h
              exact Or.inr ⟨rfl, rfl⟩
            · simp only [putF, if_neg hkid] at h
              exact Or.inl ⟨st', h, rfl, rfl⟩
          | some fs =>
            by_cases hsome : fs.claimed_caregiver_id.isSome
            · rw [receive_eq_already_claimed classify now fp sid b σ cg shift fs
                hfind hsh hrole hint hfan hsome] at h
              exact Or.inl ⟨st', h, rfl, rfl⟩
            · have hnone := Option.not_isSome_iff_eq_none.mp hsome
              rw [receive_eq_win_existing classify now fp sid b σ cg shift fs
                hfind hsh hrole hint hfan hnone] at h
              by_cases hkid : k = shift.id
              · subst hkid
                obtain rfl : { fs with claimed_caregiver_id := some cg.id } = st' := by
                  simpa [putF] using h
                exact Or.inl ⟨fs, hfan, rfl, rfl⟩
              · simp only [putF, if_neg hkid] at h
                exact Or.inl ⟨st', h, rfl, rfl⟩

theorem stepOp_role_inv (classify : String → ShiftRequestMessageIntent)
    (sf cf : String → Bool) (σ : SystemState) (op : Op)
    (hwf : KeysConsistent σ) (hinv : RoleInv σ) :
    RoleInv (stepOp classify sf cf σ op).1 := by
  cases op with
  | fanout sid now =>
    intro k st' hk' cid hm
    rw [show (stepOp classify sf cf σ (Op.fanout sid now)).1.shift_db =
      σ.shift_db from trigger_shift_db sf cf sid now σ]
    rw [show (stepOp classify sf cf σ (Op.fanout sid now)).1.caregiver_db =
      σ.caregiver_db from trigger_caregiver_db sf cf sid now σ]
    by_cases hkid : k = sid
    · subst hkid
      rcases trigger_mark_src sf cf k now σ st' hk' cid hm with
        ⟨st0, hk0, hm0⟩ | ⟨shift, c, hsh, hcmem, hcrole, hcid⟩
      · exact hinv k st0 hk0 cid hm0
      · exact ⟨shift, c, hsh, hcmem, hcid, hcrole⟩
    · have hk'' : σ.fanout_db k = some st' := by
        rw [← trigger_other_key sf cf sid now σ k hkid]
        exact hk'
      exact hinv k st' hk'' cid hm
  | inbound fp sid b now =>
    intro k st' hk' cid hm
    rw [show (stepOp classify sf cf σ (Op.inbound fp sid b now)).1.caregiver_db =
      σ.caregiver_db from receive_caregiver_db classify now fp sid b σ]
    rcases receive_fanout_entry_src classify now fp sid b σ k st' hk' with
      ⟨st, hk, hsms, hcall⟩ | ⟨hsms, hcall⟩
    · rw [hsms, hcall] at hm
      obtain ⟨shift, c, hsh, hcmem, hcid, hcrole⟩ := hinv k st hk cid hm
      rcases receive_shift_frame_consistent classify now fp sid b σ hwf k with
        heq | ⟨shift'', cg, hold, hmem, heq⟩
      · exact ⟨shift, c, by
          rw [show (stepOp classify sf cf σ (Op.inbound fp sid b now)).1.shift_db k =
            σ.shift_db k from heq]
          exact hsh, hcmem, hcid, hcrole⟩
      · have hsame : shift'' = shift := by
          rw [hold] at hsh
          simpa using hsh
        refine ⟨{ shift'' with claimed_by_caregiver_id := some cg.id }, c, heq,
          hcmem, hcid, ?_⟩
        rw [hsame]
        exact hcrole
    · rw [hsms, hcall] at hm
      rcases hm with hm | hm <;> cases hm

theorem runOps_role_inv (classify : String → ShiftRequestMessageIntent)
    (sf cf : String → Bool) (ops : List Op) :
    ∀ σ : SystemState, KeysConsistent σ → RoleInv σ →
      RoleInv (runOps classify sf cf σ ops).1 := by
  induction ops with
  | nil => intro σ _ hinv; exact hinv
  | cons op rest ih =>
    intro σ hwf hinv
    exact ih _ (stepOp_keys_consistent classify sf cf σ op hwf)
      (stepOp_role_inv classify sf cf σ op hwf hinv)

theorem trigger_marks_all (sf cf : String → Bool) (sid : String) (now : Nat)
    (σ : SystemState) (shift : Shift) (st : ShiftFanoutState)
    (hs : σ.shift_db sid = some shift) (hf : σ.fanout_db sid = some st)
    (hcl : truthy st.claimed_caregiver_id = false) :
    ∃ st', (trigger_fanout sf cf sid now σ).sys.fanout_db sid = some st' ∧
      ∀ c ∈ σ.caregiver_db, c.role = shift.role_required →
        c.id ∈ st'.sms_notified_caregiver_ids := by
  unfold trigger_fanout
  rw [hs, hf]
  dsimp only
  rw [if_neg (by simp [hcl])]
  set el := σ.caregiver_db.filter (fun c => c.role == shift.role_required) with hel
  obtain ⟨f1s, f1e, f1c, f1call, f1id⟩ := smsRound_fields shift.id el st
  set st2 : ShiftFanoutState :=
    { (smsRound shift.id el st).1 with escalated_to_call := true } with hst2
  obtain ⟨f3s, f3e, f3c, f3sms, f3id⟩ := callRound_fields shift.id el st2
  have g1all : ∀ c ∈ σ.caregiver_db, c.role = shift.role_required →
      c.id ∈ (smsRound shift.id el st).1.sms_notified_caregiver_ids := by
    intro c hc hr
    exact smsRound_complete shift.id el st c (List.mem_filter.mpr ⟨hc, by simp [hr]⟩)
  have g3all : ∀ c ∈ σ.caregiver_db, c.role = shift.role_required →
      c.id ∈ (callRound shift.id el st2).1.sms_notified_caregiver_ids := by
    intro c hc hr
    rw [f3sms]
    have := g1all c hc hr
    simpa [hst2] using this
  have hput : ∀ (f : String → Option ShiftFanoutState) (v : ShiftFanoutState),
      putF f sid v sid = some v := by
    intro f v
    simp [putF]
  split_ifs
  all_goals
    first
    | exact ⟨(smsRound shift.id el st).1, hput _ _, g1all⟩
    | exact ⟨(callRound shift.id el st2).1, hput _ _, g3all⟩

theorem runInbound_already_claimed (classify : String → ShiftRequestMessageIntent)
    (now : Nat) (sid b : String) (shId role w : String) (cs : List Caregiver) :
    ∀ σ : SystemState,
      (∀ c ∈ cs, σ.caregiver_db.find? (fun x => x.phone == c.phone) = some c ∧
        c.role = role) →
      (∃ sh', σ.shift_db sid = some sh' ∧ sh'.id = shId ∧
        sh'.role_required = role) →
      (∃ fs, σ.fanout_db shId = some fs ∧ fs.claimed_caregiver_id = some w) →
      classify b = ShiftRequestMessageIntent.accept →
      runInbound classify now (cs.map (fun c => (c.phone, sid, b))) σ =
        (cs.map (fun _ => InboundOutcome.resp
          ⟨false, "Shift already claimed", shId, some w⟩), σ) := by
  induction cs with
  | nil => intro σ _ _ _ _; rfl
  | cons c rest ih =>
    intro σ hfind hsh hfan hint
    obtain ⟨sh', hsh', hshid, hshrole⟩ := hsh
    obtain ⟨fs, hfs, hw⟩ := hfan
    obtain ⟨hfindc, hrolec⟩ := hfind c (List.mem_cons_self _ _)
    have hrole' : ¬sh'.role_required ≠ c.role := by
      rw [hshrole, hrolec]
      simp
    have hfan' : σ.fanout_db sh'.id = some fs := by
      rw [hshid]
      exact hfs
    have hrec := receive_eq_already_claimed classify now c.phone sid b σ c sh' fs
      hfindc hsh' hrole' hint hfan' (by rw [hw]; rfl)
    simp only [List.map_cons, runInbound]
    rw [hrec]
    rw [ih σ (fun c' hc' => hfind c' (List.mem_cons_of_mem _ hc'))
      ⟨sh', hsh', hshid, hshrole⟩ ⟨fs, hfs, hw⟩ hint]
    simp [hshid, hw]

/-! ### Concrete system states (mirroring `tests/test_fanout.py` fixtures) -/

def alice : Caregiver := ⟨"c1", "Alice", "RN", "+15551111"⟩

def bobLPN : Caregiver := ⟨"c2", "Bob", "LPN", "+15552222"⟩

def carol : Caregiver := ⟨"c3", "Carol", "RN", "+15553333"⟩

def daveRN : Caregiver := ⟨"c4", "Dave", "RN", "+15554444"⟩

def shiftS1 : Shift := ⟨"s1", "org1", "RN", 0, 28800, none⟩

/-- Fresh system: three caregivers, one RN shift, no fanout state. -/
def freshSample : SystemState :=
  ⟨[alice, bobLPN, carol],
   fun k => if k = "s1" then some shiftS1 else none,
   fun _ => none⟩

def claimedFan : ShiftFanoutState := ⟨"s1", 0, ["c1", "c3"], [], some "c1", false⟩

/-- System in which Alice has already claimed shift s1. -/
def claimedSample : SystemState :=
  ⟨[alice, bobLPN, carol],
   fun k => if k = "s1" then some ⟨"s1", "org1", "RN", 0, 28800, some "c1"⟩ else none,
   fun k => if k = "s1" then some claimedFan else none⟩

def preFan : ShiftFanoutState := ⟨"s1", 0, ["c1", "c3"], [], none, false⟩

/-- System after the SMS round, before escalation, shift unclaimed. -/
def preSample : SystemState :=
  ⟨[alice, bobLPN, carol],
   fun k => if k = "s1" then some shiftS1 else none,
   fun k => if k = "s1" then some preFan else none⟩

def escalatedFan : ShiftFanoutState := ⟨"s1", 0, ["c1", "c3"], ["c1", "c3"], none, true⟩

/-- System after escalation fired, with Dave newly added to the pool. -/
def escalatedSample : SystemState :=
  ⟨[alice, bobLPN, carol, daveRN],
   fun k => if k = "s1" then some shiftS1 else none,
   fun k => if k = "s1" then some escalatedFan else none⟩

def emptyClaimFan : ShiftFanoutState := ⟨"s1", 0, [], [], some "", false⟩

/-- System whose fanout state carries the empty string as claimant. -/
def emptyClaimSample : SystemState :=
  ⟨[alice, bobLPN, carol],
   fun k => if k = "s1" then some shiftS1 else none,
   fun k => if k = "s1" then some emptyClaimFan else none⟩

theorem keysConsistent_single (sh : Shift) (cgs : List Caregiver)
    (f : String → Option ShiftFanoutState) (hid : sh.id = "s1") :
    KeysConsistent ⟨cgs, fun k => if k = "s1" then some sh else none, f⟩ := by
  intro k shift h
  dsimp at h
  split_ifs at h with hk
  obtain rfl : sh = shift := by simpa using h
  rw [hid, hk]

/-! ### The claims -/

/-- C8: an inbound message from a known caregiver whose role does not match
the target shift's required role is rejected with a non-success
claim-response before the intent classifier is consulted (the result is the
same for every classifier), and no state is mutated. -/
theorem claim_C8_ineligible_rejected_before_classification
    (now : Nat) (fp sid b : String) (σ : SystemState) (cg : Caregiver)
    (shift : Shift)
    (hfind : σ.caregiver_db.find? (fun c => c.phone == fp) = some cg)
    (hsh : σ.shift_db sid = some shift)
    (hrole : shift.role_required ≠ cg.role) :
    ∀ classify : String → ShiftRequestMessageIntent,
      receive_message classify now fp sid b σ =
        ⟨InboundOutcome.resp ⟨false, "Not eligible for this shift role",
          shift.id, shift.claimed_by_caregiver_id⟩, σ⟩ :=
  fun classify => receive_eq_ineligible classify now fp sid b σ cg shift hfind hsh hrole

theorem claim_C8_witness :
    freshSample.caregiver_db.find? (fun c => c.phone == "+15552222") = some bobLPN ∧
    freshSample.shift_db "s1" = some shiftS1 ∧
    shiftS1.role_required ≠ bobLPN.role ∧
    receive_message (fun _ => ShiftRequestMessageIntent.accept) 0 "+15552222" "s1"
        "Yes" freshSample =
      ⟨InboundOutcome.resp ⟨false, "Not eligible for this shift role", "s1", none⟩,
       freshSample⟩ ∧
    receive_message (fun _ => ShiftRequestMessageIntent.decline) 0 "+15552222" "s1"
        "Yes" freshSample =
      ⟨InboundOutcome.resp ⟨false, "Not eligible for this shift role", "s1", none⟩,
       freshSample⟩ :=
  ⟨rfl, rfl, by decide,
   claim_C8_ineligible_rejected_before_classification 0 "+15552222" "s1" "Yes"
     freshSample bobLPN shiftS1 rfl rfl (by decide) _,
   claim_C8_ineligible_rejected_before_classification 0 "+15552222" "s1" "Yes"
     freshSample bobLPN shiftS1 rfl rfl (by decide) _⟩

/-- C9: an inbound message from an eligible caregiver classified as DECLINE
or as UNKNOWN mutates no state (the system state is returned unchanged) and
returns a non-success response reporting the shift record's current
claimant; in particular a DECLINE never changes `claimed_by`. -/
theorem claim_C9_decline_unknown_inert
    (classify : String → ShiftRequestMessageIntent) (now : Nat)
    (fp sid b : String) (σ : SystemState) (cg : Caregiver) (shift : Shift)
    (hfind : σ.caregiver_db.find? (fun c => c.phone == fp) = some cg)
    (hsh : σ.shift_db sid = some shift)
    (hrole : ¬shift.role_required ≠ cg.role) :
    (classify b = ShiftRequestMessageIntent.decline →
      receive_message classify now fp sid b σ =
        ⟨InboundOutcome.resp ⟨false, "Shift declined", shift.id,
          shift.claimed_by_caregiver_id⟩, σ⟩) ∧
    (classify b = ShiftRequestMessageIntent.unknown →
      receive_message classify now fp sid b σ =
        ⟨InboundOutcome.resp ⟨false, "Intent unknown", shift.id,
          shift.claimed_by_caregiver_id⟩, σ⟩) :=
  ⟨fun hint => receive_eq_decline classify now fp sid b σ cg shift hfind hsh hrole hint,
   fun hint => receive_eq_unknown classify now fp sid b σ cg shift hfind hsh hrole hint⟩

theorem claim_C9_witness :
    claimedSample.caregiver_db.find? (fun c => c.phone == "+15553333") = some carol ∧
    (receive_message (fun _ => ShiftRequestMessageIntent.decline) 0 "+15553333"
        "s1" "No thanks" claimedSample =
      ⟨InboundOutcome.resp ⟨false, "Shift declined", "s1", some "c1"⟩,
       claimedSample⟩) ∧
    (receive_message (fun _ => ShiftRequestMessageIntent.unknown) 0 "+15553333"
        "s1" "???" claimedSample =
      ⟨InboundOutcome.resp ⟨false, "Intent unknown", "s1", some "c1"⟩,
       claimedSample⟩) :=
  ⟨rfl,
   (claim_C9_decline_unknown_inert (fun _ => ShiftRequestMessageIntent.decline) 0
     "+15553333" "s1" "No thanks" claimedSample carol
     ⟨"s1", "org1", "RN", 0, 28800, some "c1"⟩ rfl rfl (by decide)).1 rfl,
   (claim_C9_decline_unknown_inert (fun _ => ShiftRequestMessageIntent.unknown) 0
     "+15553333" "s1" "???" claimedSample carol
     ⟨"s1", "org1", "RN", 0, 28800, some "c1"⟩ rfl rfl (by decide)).2 rfl⟩

/-- C6 counterexample: with the claim pointer set to the empty-string
identity, `trigger_fanout`'s truthiness guard
(`if state.claimed_caregiver_id:`) does not fire, so the call dispatches an
SMS and writes an updated state — contradicting the claim that a set
`claimed_by` always returns the state unchanged with no send and no store
write. -/
theorem claim_C6_counterexample :
    emptyClaimSample.fanout_db "s1" = some emptyClaimFan ∧
    emptyClaimFan.claimed_caregiver_id = some "" ∧
    (trigger_fanout noFail noFail "s1" 0 emptyClaimSample).sends =
      [⟨ContactChannel.sms, "+15551111", "New shift available! ID: s1"⟩,
       ⟨ContactChannel.sms, "+15553333", "New shift available! ID: s1"⟩] ∧
    (trigger_fanout noFail noFail "s1" 0 emptyClaimSample).sys.fanout_db "s1" =
      some ⟨"s1", 0, ["c1", "c3"], [], some "", false⟩ := by
  refine ⟨rfl, rfl, ?_, ?_⟩ <;> decide

/-- C6 (amended): if a shift's fanout state already has `claimed_by` set to
a non-empty caregiver identity when `trigger_fanout` is invoked (and the
shift exists), the call returns that state unchanged: no SMS or call is
dispatched, the notified sets and escalated flag are not modified, and the
system state is returned without any store write. -/
theorem claim_C6_claimed_shift_frame (sf cf : String → Bool) (sid : String)
    (now : Nat) (σ : SystemState) (shift : Shift) (st : ShiftFanoutState)
    (cid : String)
    (hs : σ.shift_db sid = some shift)
    (hf : σ.fanout_db sid = some st)
    (hc : st.claimed_caregiver_id = some cid)
    (hne : cid ≠ "") :
    trigger_fanout sf cf sid now σ = ⟨FanoutOutcome.ok st, σ, []⟩ := by
  unfold trigger_fanout
  rw [hs, hf]
  dsimp only
  rw [if_pos (by simp [truthy, hc, hne])]

theorem claim_C6_witness :
    claimedSample.shift_db "s1" = some ⟨"s1", "org1", "RN", 0, 28800, some "c1"⟩ ∧
    claimedSample.fanout_db "s1" = some claimedFan ∧
    claimedFan.claimed_caregiver_id = some "c1" ∧ "c1" ≠ "" ∧
    trigger_fanout noFail noFail "s1" 300 claimedSample =
      ⟨FanoutOutcome.ok claimedFan, claimedSample, []⟩ :=
  ⟨rfl, rfl, rfl, by decide,
   claim_C6_claimed_shift_frame noFail noFail "s1" 300 claimedSample
     ⟨"s1", "org1", "RN", 0, 28800, some "c1"⟩ claimedFan "c1" rfl rfl rfl
     (by decide)⟩

/-- C3 counterexample: when one SMS send raises, the `asyncio.gather` call
in `trigger_fanout` propagates the exception, so the overall call fails
instead of returning the FanoutState — contradicting the claim that an
individual send failure does not abort the advance call. -/
theorem claim_C3_counterexample :
    (trigger_fanout (fun p => p == "+15551111") noFail "s1" 0
        freshSample).outcome = FanoutOutcome.sendFailed ∧
    ∀ st, (trigger_fanout (fun p => p == "+15551111") noFail "s1" 0
        freshSample).outcome ≠ FanoutOutcome.ok st := by
  refine ⟨by decide, fun st h => ?_⟩
  rw [show (trigger_fanout (fun p => p == "+15551111") noFail "s1" 0
      freshSample).outcome = FanoutOutcome.sendFailed by decide] at h
  cases h

theorem callRound_send_of_unmarked (m : String) (el : List Caregiver) :
    ∀ st : ShiftFanoutState, (el.map Caregiver.id).Nodup →
      ∀ c ∈ el, c.id ∉ st.call_notified_caregiver_ids →
        (⟨ContactChannel.call, c.phone, callMessage m⟩ : Send) ∈ (callRound m el st).2 := by
  induction el with
  | nil => intro st _ c hc; cases hc
  | cons a rest ih =>
    intro st hnd c hc hcm
    have hnd' : (rest.map Caregiver.id).Nodup := (List.nodup_cons.mp hnd).2
    have hout : a.id ∉ rest.map Caregiver.id := (List.nodup_cons.mp hnd).1
    by_cases h : a.id ∈ st.call_notified_caregiver_ids
    · rcases List.mem_cons.mp hc with rfl | hc
      · exact absurd h hcm
      · simp only [callRound, if_pos h]
        exact ih st hnd' c hc hcm
    · rcases List.mem_cons.mp hc with rfl | hc
      · simp only [callRound, if_neg h]
        exact List.mem_cons_self _ _
      · simp only [callRound, if_neg h]
        refine List.mem_cons_of_mem _ ?_
        refine ih _ hnd' c hc ?_
        have hne : c.id ≠ a.id := by
          intro hEq
          exact hout (hEq ▸ List.mem_map_of_mem Caregiver.id hc)
        simp [hcm, hne]

theorem trigger_callFailure_isolated (sf cf : String → Bool) (sid : String)
    (now : Nat) (σ : SystemState) (shift : Shift) (c : Caregiver)
    (st : ShiftFanoutState)
    (hs : σ.shift_db sid = some shift)
    (hf : σ.fanout_db sid = some st)
    (hct : truthy st.claimed_caregiver_id = false)
    (hnd : ((σ.caregiver_db.filter
        (fun x => x.role == shift.role_required)).map Caregiver.id).Nodup)
    (hc : c ∈ σ.caregiver_db) (hrole : c.role = shift.role_required)
    (hesc : st.escalated_to_call = false)
    (hb : st.started_at + escalationDelay ≤ now)
    (hsf : ∀ c' ∈ σ.caregiver_db, c'.role = shift.role_required →
      sf c'.phone = false)
    (hcm : c.id ∉ st.call_notified_caregiver_ids)
    (hfail : cf c.phone = true) :
    (trigger_fanout sf cf sid now σ).outcome = FanoutOutcome.sendFailed ∧
    (∀ c' ∈ σ.caregiver_db, c'.role = shift.role_required →
      c'.id ∉ st.call_notified_caregiver_ids →
      (⟨ContactChannel.call, c'.phone, callMessage shift.id⟩ : Send) ∈
        (trigger_fanout sf cf sid now σ).sends) ∧
    ∃ st', (trigger_fanout sf cf sid now σ).sys.fanout_db sid = some st' ∧
      st'.escalated_to_call = true ∧
      ∀ c' ∈ σ.caregiver_db, c'.role = shift.role_required →
        c'.id ∈ st'.call_notified_caregiver_ids := by
  unfold trigger_fanout
  rw [hs, hf]
  dsimp only
  rw [if_neg (by simp [hct])]
  set el := σ.caregiver_db.filter (fun x => x.role == shift.role_required) with hel
  obtain ⟨f1s, f1e, f1c, f1call, f1id⟩ := smsRound_fields shift.id el st
  have hnofail : ¬((smsRound shift.id el st).2.any fun s => sf s.phone) = true := by
    intro hany
    obtain ⟨s, hm, hfs⟩ := List.any_eq_true.mp hany
    obtain ⟨c', hc'el, rfl⟩ := smsRound_sends_shape shift.id el st s hm
    rw [hel] at hc'el
    obtain ⟨hc'mem, hc'role⟩ := List.mem_filter.mp hc'el
    have hzero := hsf c' hc'mem (by simpa using hc'role)
    simp [hzero] at hfs
  rw [if_neg hnofail]
  rw [if_pos (⟨by rw [f1s]; exact hb, by rw [f1e]; simp [hesc]⟩ :
    (smsRound shift.id el st).1.started_at + escalationDelay ≤ now ∧
      ¬(smsRound shift.id el st).1.escalated_to_call = true)]
  set st2 : ShiftFanoutState :=
    { (smsRound shift.id el st).1 with escalated_to_call := true } with hst2
  obtain ⟨f3s, f3e, f3c, f3sms, f3id⟩ := callRound_fields shift.id el st2
  have hst2call : st2.call_notified_caregiver_ids =
      st.call_notified_caregiver_ids := f1call
  have hsend : ∀ c' ∈ σ.caregiver_db, c'.role = shift.role_required →
      c'.id ∉ st.call_notified_caregiver_ids →
      (⟨ContactChannel.call, c'.phone, callMessage shift.id⟩ : Send) ∈
        (callRound shift.id el st2).2 := by
    intro c' hc' hr hcm'
    refine callRound_send_of_unmarked shift.id el st2 hnd c'
      (List.mem_filter.mpr ⟨hc', by simp [hr]⟩) ?_
    rw [hst2call]
    exact hcm'
  have hany : ((callRound shift.id el st2).2.any fun s => cf s.phone) = true :=
    List.any_eq_true.mpr ⟨_, hsend c hc hrole hcm, hfail⟩
  rw [if_pos hany]
  refine ⟨rfl, ?_, ?_⟩
  · intro c' hc' hr hcm'
    exact List.mem_append_right _ (hsend c' hc' hr hcm')
  · refine ⟨(callRound shift.id el st2).1, by simp [putF], f3e, ?_⟩
    intro c' hc' hr
    exact callRound_complete shift.id el st2 c'
      (List.mem_filter.mpr ⟨hc', by simp [hr]⟩)

/-- C3 (amended): a failure of one individual SMS or call send does not
prevent the other sends of its round from being issued, and the caregiver
whose send failed remains marked in the corresponding notified set (for a
failed call, the escalation flip also survives) — but the `trigger_fanout`
call itself fails (the exception propagates out of `asyncio.gather`)
instead of returning the FanoutState.  First conjunct: a failing SMS send;
second conjunct: a failing call send during the escalation round. -/
theorem claim_C3_send_failure_isolated (sf cf : String → Bool) (sid : String)
    (now : Nat) (σ : SystemState) (shift : Shift) (c : Caregiver)
    (hs : σ.shift_db sid = some shift)
    (hnd : ((σ.caregiver_db.filter
        (fun x => x.role == shift.role_required)).map Caregiver.id).Nodup)
    (hc : c ∈ σ.caregiver_db) (hrole : c.role = shift.role_required) :
    (claimTruthy σ sid = false → c.id ∉ preSms σ sid → sf c.phone = true →
      (trigger_fanout sf cf sid now σ).outcome = FanoutOutcome.sendFailed ∧
      (∀ c' ∈ σ.caregiver_db, c'.role = shift.role_required →
        c'.id ∉ preSms σ sid →
        (⟨ContactChannel.sms, c'.phone, smsMessage shift.id⟩ : Send) ∈
          (trigger_fanout sf cf sid now σ).sends) ∧
      ∃ st', (trigger_fanout sf cf sid now σ).sys.fanout_db sid = some st' ∧
        ∀ c' ∈ σ.caregiver_db, c'.role = shift.role_required →
          c'.id ∈ st'.sms_notified_caregiver_ids) ∧
    (∀ st : ShiftFanoutState, σ.fanout_db sid = some st →
      truthy st.claimed_caregiver_id = false →
      st.escalated_to_call = false →
      st.started_at + escalationDelay ≤ now →
      (∀ c' ∈ σ.caregiver_db, c'.role = shift.role_required →
        sf c'.phone = false) →
      c.id ∉ st.call_notified_caregiver_ids → cf c.phone = true →
      (trigger_fanout sf cf sid now σ).outcome = FanoutOutcome.sendFailed ∧
      (∀ c' ∈ σ.caregiver_db, c'.role = shift.role_required →
        c'.id ∉ st.call_notified_caregiver_ids →
        (⟨ContactChannel.call, c'.phone, callMessage shift.id⟩ : Send) ∈
          (trigger_fanout sf cf sid now σ).sends) ∧
      ∃ st', (trigger_fanout sf cf sid now σ).sys.fanout_db sid = some st' ∧
        st'.escalated_to_call = true ∧
        ∀ c' ∈ σ.caregiver_db, c'.role = shift.role_required →
          c'.id ∈ st'.call_notified_caregiver_ids) :=
  ⟨fun hct hcm hfail =>
    trigger_sendFailure_isolated sf cf sid now σ shift c hs hct hnd hc hrole
      hcm hfail,
   fun st hf hct hesc hb hsf hcm hfail =>
    trigger_callFailure_isolated sf cf sid now σ shift c st hs hf hct hnd hc
      hrole hesc hb hsf hcm hfail⟩

theorem claim_C3_witness :
    freshSample.shift_db "s1" = some shiftS1 ∧
    claimTruthy freshSample "s1" = false ∧
    alice ∈ freshSample.caregiver_db ∧ alice.role = shiftS1.role_required ∧
    alice.id ∉ preSms freshSample "s1" ∧
    ((fun p => p == "+15551111") alice.phone) = true ∧
    ((trigger_fanout (fun p => p == "+15551111") noFail "s1" 0
        freshSample).outcome = FanoutOutcome.sendFailed ∧
      (∀ c' ∈ freshSample.caregiver_db, c'.role = shiftS1.role_required →
        c'.id ∉ preSms freshSample "s1" →
        (⟨ContactChannel.sms, c'.phone, smsMessage shiftS1.id⟩ : Send) ∈
          (trigger_fanout (fun p => p == "+15551111") noFail "s1" 0
            freshSample).sends) ∧
      ∃ st', (trigger_fanout (fun p => p == "+15551111") noFail "s1" 0
          freshSample).sys.fanout_db "s1" = some st' ∧
        ∀ c' ∈ freshSample.caregiver_db, c'.role = shiftS1.role_required →
          c'.id ∈ st'.sms_notified_caregiver_ids) ∧
    preSample.fanout_db "s1" = some preFan ∧
    truthy preFan.claimed_caregiver_id = false ∧
    preFan.escalated_to_call = false ∧
    preFan.started_at + escalationDelay ≤ 600 ∧
    alice.id ∉ preFan.call_notified_caregiver_ids ∧
    ((trigger_fanout noFail (fun p => p == "+15551111") "s1" 600
        preSample).outcome = FanoutOutcome.sendFailed ∧
      (∀ c' ∈ preSample.caregiver_db, c'.role = shiftS1.role_required →
        c'.id ∉ preFan.call_notified_caregiver_ids →
        (⟨ContactChannel.call, c'.phone, callMessage shiftS1.id⟩ : Send) ∈
          (trigger_fanout noFail (fun p => p == "+15551111") "s1" 600
            preSample).sends) ∧
      ∃ st', (trigger_fanout noFail (fun p => p == "+15551111") "s1" 600
          preSample).sys.fanout_db "s1" = some st' ∧
        st'.escalated_to_call = true ∧
        ∀ c' ∈ preSample.caregiver_db, c'.role = shiftS1.role_required →
          c'.id ∈ st'.call_notified_caregiver_ids) :=
  ⟨rfl, rfl, by decide, rfl, by decide, rfl,
   (claim_C3_send_failure_isolated (fun p => p == "+15551111") noFail "s1" 0
     freshSample shiftS1 alice rfl (by decide) (by decide) rfl).1 rfl
     (by decide) rfl,
   rfl, rfl, rfl, by decide, by decide,
   (claim_C3_send_failure_isolated noFail (fun p => p == "+15551111") "s1" 600
     preSample shiftS1 alice rfl (by decide) (by decide) rfl).2 preFan rfl rfl
     rfl (by decide) (fun c' _ _ => rfl) (by decide) rfl⟩

/-- C5: if a `trigger_fanout` call for a shift returns a FanoutState, an
immediately repeated call with the same clock value returns the identical
FanoutState, leaves the system state exactly as it was, and issues zero
additional SMS or call sends (regardless of the channel oracles of the
second call). -/
theorem claim_C5_idempotent_trigger (sf cf sf' cf' : String → Bool)
    (sid : String) (now : Nat) (σ : SystemState) (st1 : ShiftFanoutState)
    (h : (trigger_fanout sf cf sid now σ).outcome = FanoutOutcome.ok st1) :
    trigger_fanout sf' cf' sid now (trigger_fanout sf cf sid now σ).sys =
      ⟨FanoutOutcome.ok st1, (trigger_fanout sf cf sid now σ).sys, []⟩ := by
  obtain ⟨hentry, shift, hsh, hq⟩ := trigger_ok_inv sf cf sid now σ st1 h
  apply trigger_noop sf' cf' sid now _ st1 shift hentry
  · rw [trigger_shift_db]
    exact hsh
  · rcases hq with hcl | ⟨hcl, hall, hcond⟩
    · exact Or.inl hcl
    · refine Or.inr ⟨?_, hcond⟩
      intro c hcel
      apply hall c
      rw [trigger_caregiver_db] at hcel
      exact hcel

theorem claim_C5_witness :
    (trigger_fanout noFail noFail "s1" 0 freshSample).outcome =
      FanoutOutcome.ok ⟨"s1", 0, ["c1", "c3"], [], none, false⟩ ∧
    trigger_fanout noFail noFail "s1" 0
        (trigger_fanout noFail noFail "s1" 0 freshSample).sys =
      ⟨FanoutOutcome.ok ⟨"s1", 0, ["c1", "c3"], [], none, false⟩,
       (trigger_fanout noFail noFail "s1" 0 freshSample).sys, []⟩ :=
  ⟨by decide,
   claim_C5_idempotent_trigger noFail noFail noFail noFail "s1" 0 freshSample
     ⟨"s1", 0, ["c1", "c3"], [], none, false⟩ (by decide)⟩

/-- C1: once a shift's claim pointer is set (the fanout state's
`claimed_caregiver_id`, mirrored on the shift record), no subsequent
operation — any sequence of fanout triggers and inbound messages, with any
classifier and channel behaviour — ever changes it to a different identity
or clears it, and the shift record is never rewritten; a later eligible
ACCEPT for that shift reports failure naming the existing claimant. -/
theorem claim_C1_claim_pointer_immutable
    (σ : SystemState) (sid : String) (st : ShiftFanoutState) (cid : String)
    (hwf : KeysConsistent σ)
    (hk : σ.fanout_db sid = some st)
    (hc : st.claimed_caregiver_id = some cid) :
    (∀ (classify : String → ShiftRequestMessageIntent) (sf cf : String → Bool)
        (ops : List Op),
      ∃ st', (runOps classify sf cf σ ops).1.fanout_db sid = some st' ∧
        st'.claimed_caregiver_id = some cid ∧
        (runOps classify sf cf σ ops).1.shift_db sid = σ.shift_db sid) ∧
    (∀ (classify : String → ShiftRequestMessageIntent) (now : Nat)
        (fp b : String) (cg : Caregiver) (shift : Shift),
      σ.caregiver_db.find? (fun c => c.phone == fp) = some cg →
      σ.shift_db sid = some shift →
      shift.role_required = cg.role →
      classify b = ShiftRequestMessageIntent.accept →
      receive_message classify now fp sid b σ =
        ⟨InboundOutcome.resp ⟨false, "Shift already claimed", shift.id, some cid⟩,
         σ⟩) := by
  constructor
  · intro classify sf cf ops
    exact runOps_claimed_frame classify sf cf ops σ sid st cid hk hc
  · intro classify now fp b cg shift hfind hsh hrole hint
    have hid : shift.id = sid := hwf sid shift hsh
    have hfan' : σ.fanout_db shift.id = some st := by
      rw [hid]
      exact hk
    have heq := receive_eq_already_claimed classify now fp sid b σ cg shift st
      hfind hsh (by simp [hrole]) hint hfan' (by rw [hc]; rfl)
    rw [heq, hc]

theorem claim_C1_witness :
    KeysConsistent claimedSample ∧
    claimedSample.fanout_db "s1" = some claimedFan ∧
    claimedFan.claimed_caregiver_id = some "c1" ∧
    (∃ st', (runOps (fun _ => ShiftRequestMessageIntent.accept) noFail noFail
        claimedSample
        [Op.fanout "s1" 0, Op.inbound "+15553333" "s1" "Yes" 5]).1.fanout_db "s1" =
          some st' ∧
      st'.claimed_caregiver_id = some "c1" ∧
      (runOps (fun _ => ShiftRequestMessageIntent.accept) noFail noFail
        claimedSample
        [Op.fanout "s1" 0, Op.inbound "+15553333" "s1" "Yes" 5]).1.shift_db "s1" =
          claimedSample.shift_db "s1") ∧
    receive_message (fun _ => ShiftRequestMessageIntent.accept) 5 "+15553333" "s1"
        "Accept please" claimedSample =
      ⟨InboundOutcome.resp ⟨false, "Shift already claimed", "s1", some "c1"⟩,
       claimedSample⟩ :=
  ⟨keysConsistent_single _ _ _ rfl, rfl, rfl,
   (claim_C1_claim_pointer_immutable claimedSample "s1" claimedFan "c1"
     (keysConsistent_single _ _ _ rfl) rfl rfl).1 _ _ _ _,
   (claim_C1_claim_pointer_immutable claimedSample "s1" claimedFan "c1"
     (keysConsistent_single _ _ _ rfl) rfl rfl).2 _ 5 "+15553333" "Accept please"
     carol ⟨"s1", "org1", "RN", 0, 28800, some "c1"⟩ rfl rfl rfl rfl⟩

/-- C4 counterexample: with the shift already claimed, the first
`trigger_fanout` call at/after the 10-minute boundary returns early and
does not set `escalated_to_call` — contradicting the claim that the flag
becomes true on the first advance call at or after `started_at` + 10
minutes. -/
theorem claim_C4_counterexample :
    claimedFan.escalated_to_call = false ∧
    claimedFan.started_at + escalationDelay ≤ 600 ∧
    (advance "s1" 600 claimedSample).outcome = FanoutOutcome.ok claimedFan ∧
    (advance "s1" 600 claimedSample).sys.fanout_db "s1" = some claimedFan :=
  ⟨rfl, by decide, by decide, by decide⟩

/-- C4 (amended): for a shift with a fanout state, `escalated_to_call`
stays false on any advance strictly before `started_at` + 10 minutes (and
`started_at` never changes); it becomes true on the first advance at or
after the boundary provided the shift is not yet claimed at that call; and
once true it stays true with no further call round across any subsequent
operation sequence. -/
theorem claim_C4_escalation_boundary
    (σ : SystemState) (sid : String) (st : ShiftFanoutState)
    (hk : σ.fanout_db sid = some st) :
    (∀ now, st.escalated_to_call = false → now < st.started_at + escalationDelay →
      ∃ st', (advance sid now σ).sys.fanout_db sid = some st' ∧
        st'.escalated_to_call = false ∧ st'.started_at = st.started_at) ∧
    (∀ now shift, σ.shift_db sid = some shift → st.claimed_caregiver_id = none →
      st.escalated_to_call = false → st.started_at + escalationDelay ≤ now →
      ∃ st', (advance sid now σ).outcome = FanoutOutcome.ok st' ∧
        (advance sid now σ).sys.fanout_db sid = some st' ∧
        st'.escalated_to_call = true ∧ st'.started_at = st.started_at) ∧
    (st.escalated_to_call = true → KeysConsistent σ →
      ∀ (classify : String → ShiftRequestMessageIntent) (sf cf : String → Bool)
        (ops : List Op),
        ∃ st', (runOps classify sf cf σ ops).1.fanout_db sid = some st' ∧
          st'.escalated_to_call = true ∧
          st'.call_notified_caregiver_ids = st.call_notified_caregiver_ids) := by
  refine ⟨?_, ?_, ?_⟩
  · intro now hesc hlt
    obtain ⟨st', hentry, -, hstart, -, -, -, -, hbefore⟩ :=
      trigger_fanout_frame noFail noFail sid now σ st hk
    exact ⟨st', hentry, hbefore hesc hlt, hstart⟩
  · intro now shift hsh hcl hesc hb
    exact advance_flips sid now σ st shift hsh hk hcl hesc hb
  · intro hesc hwf classify sf cf ops
    obtain ⟨st', h1, h2, h3, -⟩ :=
      runOps_escalated_frozen classify sf cf ops σ sid st hwf hk hesc
    exact ⟨st', h1, h2, h3⟩

theorem claim_C4_witness :
    preSample.fanout_db "s1" = some preFan ∧
    preFan.escalated_to_call = false ∧
    (300 : Nat) < preFan.started_at + escalationDelay ∧
    (∃ st', (advance "s1" 300 preSample).sys.fanout_db "s1" = some st' ∧
      st'.escalated_to_call = false ∧ st'.started_at = preFan.started_at) ∧
    (∃ st', (advance "s1" 600 preSample).outcome = FanoutOutcome.ok st' ∧
      (advance "s1" 600 preSample).sys.fanout_db "s1" = some st' ∧
      st'.escalated_to_call = true ∧ st'.started_at = preFan.started_at) ∧
    escalatedSample.fanout_db "s1" = some escalatedFan ∧
    escalatedFan.escalated_to_call = true ∧
    ∃ st', (runOps (fun _ => ShiftRequestMessageIntent.accept) noFail noFail
        escalatedSample [Op.fanout "s1" 700]).1.fanout_db "s1" = some st' ∧
      st'.escalated_to_call = true ∧
      st'.call_notified_caregiver_ids = escalatedFan.call_notified_caregiver_ids :=
  ⟨rfl, rfl, by decide,
   (claim_C4_escalation_boundary preSample "s1" preFan rfl).1 300 rfl (by decide),
   (claim_C4_escalation_boundary preSample "s1" preFan rfl).2.1 600 shiftS1 rfl
     rfl rfl (by decide),
   rfl, rfl,
   (claim_C4_escalation_boundary escalatedSample "s1" escalatedFan rfl).2.2 rfl
     (keysConsistent_single _ _ _ rfl) _ _ _ _⟩

/-- C10: the call round is dispatched only by the trigger that flips
`escalated_to_call`; once the flag is set, no sequence of operations ever
dispatches a call for that shift or grows its `call_notified` set, while a
caregiver who joins the pool after the flip is still added to
`sms_notified` by a later trigger (when the shift is unclaimed) — so such
a caregiver never receives a call. -/
theorem claim_C10_calls_only_at_flip
    (σ : SystemState) (sid : String) (st : ShiftFanoutState) (shift : Shift)
    (hwf : KeysConsistent σ)
    (hk : σ.fanout_db sid = some st)
    (hsh : σ.shift_db sid = some shift)
    (he : st.escalated_to_call = true) :
    (∀ (classify : String → ShiftRequestMessageIntent) (sf cf : String → Bool)
        (ops : List Op),
      ∃ st', (runOps classify sf cf σ ops).1.fanout_db sid = some st' ∧
        st'.escalated_to_call = true ∧
        st'.call_notified_caregiver_ids = st.call_notified_caregiver_ids ∧
        ∀ s ∈ (runOps classify sf cf σ ops).2,
          s.channel = ContactChannel.call → s.message ≠ callMessage sid) ∧
    (∀ (now : Nat) (c : Caregiver), st.claimed_caregiver_id = none →
      c ∈ σ.caregiver_db → c.role = shift.role_required →
      ∃ st', (advance sid now σ).sys.fanout_db sid = some st' ∧
        c.id ∈ st'.sms_notified_caregiver_ids) := by
  constructor
  · intro classify sf cf ops
    exact runOps_escalated_frozen classify sf cf ops σ sid st hwf hk he
  · intro now c hcl hcmem hcrole
    obtain ⟨st', hentry, hall⟩ :=
      trigger_marks_all noFail noFail sid now σ shift st hsh hk
        (by simp [truthy, hcl])
    exact ⟨st', hentry, hall c hcmem hcrole⟩

theorem claim_C10_witness :
    KeysConsistent escalatedSample ∧
    escalatedSample.fanout_db "s1" = some escalatedFan ∧
    escalatedSample.shift_db "s1" = some shiftS1 ∧
    escalatedFan.escalated_to_call = true ∧
    (∃ st', (runOps (fun _ => ShiftRequestMessageIntent.unknown) noFail noFail
        escalatedSample [Op.fanout "s1" 700]).1.fanout_db "s1" = some st' ∧
      st'.escalated_to_call = true ∧
      st'.call_notified_caregiver_ids = escalatedFan.call_notified_caregiver_ids ∧
      ∀ s ∈ (runOps (fun _ => ShiftRequestMessageIntent.unknown) noFail noFail
          escalatedSample [Op.fanout "s1" 700]).2,
        s.channel = ContactChannel.call → s.message ≠ callMessage "s1") ∧
    (escalatedFan.claimed_caregiver_id = none ∧ daveRN ∈ escalatedSample.caregiver_db ∧
      daveRN.role = shiftS1.role_required ∧
      ∃ st', (advance "s1" 700 escalatedSample).sys.fanout_db "s1" = some st' ∧
        daveRN.id ∈ st'.sms_notified_caregiver_ids) :=
  ⟨keysConsistent_single _ _ _ rfl, rfl, rfl, rfl,
   (claim_C10_calls_only_at_flip escalatedSample "s1" escalatedFan shiftS1
     (keysConsistent_single _ _ _ rfl) rfl rfl rfl).1 _ _ _ _,
   rfl, by decide, rfl,
   (claim_C10_calls_only_at_flip escalatedSample "s1" escalatedFan shiftS1
     (keysConsistent_single _ _ _ rfl) rfl rfl rfl).2 700 daveRN rfl (by decide) rfl⟩

/-- C7: starting from a system with no fanout states and distinct caregiver
ids, across any sequence of fanout triggers and inbound messages a
caregiver whose role differs from a shift's `role_required` never appears
in that shift's `sms_notified` or `call_notified` set. -/
theorem claim_C7_role_exclusion
    (classify : String → ShiftRequestMessageIntent) (sf cf : String → Bool)
    (σ0 : SystemState) (ops : List Op)
    (hfresh : ∀ k, σ0.fanout_db k = none)
    (hwf : KeysConsistent σ0)
    (hnd : (σ0.caregiver_db.map Caregiver.id).Nodup)
    (c : Caregiver) (hc : c ∈ σ0.caregiver_db)
    (sid : String) (st : ShiftFanoutState) (shift : Shift)
    (hst : (runOps classify sf cf σ0 ops).1.fanout_db sid = some st)
    (hsh : (runOps classify sf cf σ0 ops).1.shift_db sid = some shift)
    (hrole : c.role ≠ shift.role_required) :
    c.id ∉ st.sms_notified_caregiver_ids ∧
    c.id ∉ st.call_notified_caregiver_ids := by
  have hinv0 : RoleInv σ0 := by
    intro k st' h
    rw [hfresh k] at h
    cases h
  have hinv := runOps_role_inv classify sf cf ops σ0 hwf hinv0
  have main : ¬(c.id ∈ st.sms_notified_caregiver_ids ∨
      c.id ∈ st.call_notified_caregiver_ids) := by
    intro hmem
    obtain ⟨shift', c', hsh', hc'mem, hid, hrole'⟩ := hinv sid st hst c.id hmem
    have hshift : shift' = shift := by
      rw [hsh'] at hsh
      simpa using hsh
    rw [runOps_caregiver_db classify sf cf ops σ0] at hc'mem
    have hcc : c' = c := List.inj_on_of_nodup_map hnd hc'mem hc hid
    apply hrole
    rw [← hcc, hrole', hshift]
  exact ⟨fun h => main (Or.inl h), fun h => main (Or.inr h)⟩

theorem claim_C7_witness :
    (∀ k, freshSample.fanout_db k = none) ∧
    KeysConsistent freshSample ∧
    (freshSample.caregiver_db.map Caregiver.id).Nodup ∧
    bobLPN ∈ freshSample.caregiver_db ∧
    (runOps (fun _ => ShiftRequestMessageIntent.accept) noFail noFail freshSample
      [Op.fanout "s1" 0]).1.fanout_db "s1" =
        some ⟨"s1", 0, ["c1", "c3"], [], none, false⟩ ∧
    (runOps (fun _ => ShiftRequestMessageIntent.accept) noFail noFail freshSample
      [Op.fanout "s1" 0]).1.shift_db "s1" = some shiftS1 ∧
    bobLPN.role ≠ shiftS1.role_required ∧
    ("c2" ∉ (⟨"s1", 0, ["c1", "c3"], [], none, false⟩ :
        ShiftFanoutState).sms_notified_caregiver_ids ∧
     "c2" ∉ (⟨"s1", 0, ["c1", "c3"], [], none, false⟩ :
        ShiftFanoutState).call_notified_caregiver_ids) :=
  ⟨fun k => rfl, keysConsistent_single _ _ _ rfl, by decide, by decide,
   by decide, by decide, by decide,
   claim_C7_role_exclusion (fun _ => ShiftRequestMessageIntent.accept) noFail
     noFail freshSample [Op.fanout "s1" 0] (fun k => rfl)
     (keysConsistent_single _ _ _ rfl) (by decide) bobLPN (by decide) "s1"
     ⟨"s1", 0, ["c1", "c3"], [], none, false⟩ shiftS1 (by decide) (by decide)
     (by decide)⟩

/-- C2: for any number of ACCEPT attempts from distinct eligible caregivers
against an initially unclaimed shift, processed in any arrival order
(the list of attempts is arbitrary), exactly the first attempt succeeds
and every later attempt returns a non-success response with message
"Shift already claimed" naming that same first winner. -/
theorem claim_C2_first_writer_wins
    (classify : String → ShiftRequestMessageIntent) (now : Nat)
    (σ : SystemState) (sid b : String) (shift : Shift)
    (w : Caregiver) (rest : List Caregiver)
    (hsh : σ.shift_db sid = some shift)
    (hshun : shift.claimed_by_caregiver_id = none)
    (hfan : σ.fanout_db shift.id = none ∨
      ∃ fs, σ.fanout_db shift.id = some fs ∧ fs.claimed_caregiver_id = none)
    (helig : ∀ c ∈ w :: rest,
      σ.caregiver_db.find? (fun x => x.phone == c.phone) = some c ∧
      c.role = shift.role_required)
    (hdistinct : (w :: rest).Pairwise (fun a b => a.id ≠ b.id))
    (hint : classify b = ShiftRequestMessageIntent.accept) :
    (runInbound classify now ((w :: rest).map (fun c => (c.phone, sid, b))) σ).1 =
      InboundOutcome.resp ⟨true, "Shift successfully claimed!", shift.id, some w.id⟩ ::
        rest.map (fun _ => InboundOutcome.resp
          ⟨false, "Shift already claimed", shift.id, some w.id⟩) := by
  obtain ⟨hfindw, hrolew⟩ := helig w (List.mem_cons_self _ _)
  have hrw : ¬shift.role_required ≠ w.role := by simp [hrolew]
  have hrest : ∀ c ∈ rest,
      σ.caregiver_db.find? (fun x => x.phone == c.phone) = some c ∧
      c.role = shift.role_required :=
    fun c hc => helig c (List.mem_cons_of_mem _ hc)
  have finish : ∀ σ' : SystemState,
      σ'.caregiver_db = σ.caregiver_db →
      (∃ sh', σ'.shift_db sid = some sh' ∧ sh'.id = shift.id ∧
        sh'.role_required = shift.role_required) →
      (∃ fs', σ'.fanout_db shift.id = some fs' ∧
        fs'.claimed_caregiver_id = some w.id) →
      runInbound classify now (rest.map (fun c => (c.phone, sid, b))) σ' =
        (rest.map (fun _ => InboundOutcome.resp
          ⟨false, "Shift already claimed", shift.id, some w.id⟩), σ') := by
    intro σ' hcg hsh' hfan'
    apply runInbound_already_claimed classify now sid b shift.id
      shift.role_required w.id rest σ'
    · intro c hc
      rw [hcg]
      exact hrest c hc
    · exact hsh'
    · exact hfan'
    · exact hint
  rcases hfan with hfannone | ⟨fs, hfs, hfsnone⟩
  · have hwin := receive_eq_win_fresh classify now w.phone sid b σ w shift
      hfindw hsh hrw hint hfannone
    have hA : ∃ sh', (putF σ.shift_db shift.id
        { shift with claimed_by_caregiver_id := some w.id }) sid = some sh' ∧
        sh'.id = shift.id ∧ sh'.role_required = shift.role_required := by
      by_cases hss : sid = shift.id
      · exact ⟨{ shift with claimed_by_caregiver_id := some w.id },
          by simp [putF, hss], rfl, rfl⟩
      · exact ⟨shift, by simp [putF, hss, hsh], rfl, rfl⟩
    simp only [List.map_cons, runInbound]
    rw [hwin]
    dsimp only
    rw [finish ⟨σ.caregiver_db,
      putF σ.shift_db shift.id { shift with claimed_by_caregiver_id := some w.id },
      putF (putF σ.fanout_db shift.id ⟨shift.id, now, [], [], none, false⟩)
        shift.id ⟨shift.id, now, [], [], some w.id, false⟩⟩ rfl hA
      ⟨⟨shift.id, now, [], [], some w.id, false⟩, by simp [putF], rfl⟩]
  · have hwin := receive_eq_win_existing classify now w.phone sid b σ w shift fs
      hfindw hsh hrw hint hfs hfsnone
    have hA : ∃ sh', (putF σ.shift_db shift.id
        { shift with claimed_by_caregiver_id := some w.id }) sid = some sh' ∧
        sh'.id = shift.id ∧ sh'.role_required = shift.role_required := by
      by_cases hss : sid = shift.id
      · exact ⟨{ shift with claimed_by_caregiver_id := some w.id },
          by simp [putF, hss], rfl, rfl⟩
      · exact ⟨shift, by simp [putF, hss, hsh], rfl, rfl⟩
    simp only [List.map_cons, runInbound]
    rw [hwin]
    dsimp only
    rw [finish ⟨σ.caregiver_db,
      putF σ.shift_db shift.id { shift with claimed_by_caregiver_id := some w.id },
      putF σ.fanout_db shift.id { fs with claimed_caregiver_id := some w.id }⟩
      rfl hA ⟨{ fs with claimed_caregiver_id := some w.id }, by simp [putF], rfl⟩]

theorem claim_C2_witness :
    freshSample.shift_db "s1" = some shiftS1 ∧
    shiftS1.claimed_by_caregiver_id = none ∧
    freshSample.fanout_db shiftS1.id = none ∧
    (∀ c ∈ [alice, carol],
      freshSample.caregiver_db.find? (fun x => x.phone == c.phone) = some c ∧
      c.role = shiftS1.role_required) ∧
    ([alice, carol].Pairwise (fun a b => a.id ≠ b.id)) ∧
    (runInbound (fun _ => ShiftRequestMessageIntent.accept) 0
      ([alice, carol].map (fun c => (c.phone, "s1", "Yes"))) freshSample).1 =
        [InboundOutcome.resp ⟨true, "Shift successfully claimed!", "s1", some "c1"⟩,
         InboundOutcome.resp ⟨false, "Shift already claimed", "s1", some "c1"⟩] :=
  ⟨rfl, rfl, rfl, by decide, by decide,
   claim_C2_first_writer_wins (fun _ => ShiftRequestMessageIntent.accept) 0
     freshSample "s1" "Yes" shiftS1 alice [carol] rfl rfl (Or.inl rfl)
     (by decide) (by decide) rfl⟩
